import Mathlib

/-!
# Flappy Bird with Go and raylib: the game loop, embedded

The repository holds two near-duplicate programs:

* `src/main.go`, the sprite-animated game (namespace `Main` below);
* `src/FlappyBird/main.go`, the plain-circle game (namespace `FlappyBird`).

Both are one `main` function whose loop body reads the keyboard and the frame
time, updates the local variables `bird`, `pipe`, `score`, `gameOver` (and
`frameCounter` in the animated game), and services the save and load keys.

Conventions of the embedding:

* `float32` is the type `F32`: NaN, the two infinities, and finite values kept
  as an integer number of units of `2^(-149)`, the smallest positive float32.
  Every arithmetic operation computes the exact result and rounds it once to
  the nearest float32, ties to even, overflowing to an infinity; operations are
  not fused. Comparisons with NaN are false. The two zeros are one value: the
  programs never divide and never look at a sign bit.
* Go `int` is a 64-bit integer: `++` wraps (`wrap64`).
* The untyped integer constants of the `const` block are `Nat`; where Go
  divides two of them (`pipeGap/2`, `screenHeight/2`) the division is the
  integer one; the constant expression `float32(pipeGap)/2` is folded exactly
  and then rounded.
* `rl.GetFrameTime()` is one `F32` per loop iteration, the keys are booleans,
  the value returned by `rand.Intn(screenHeight-pipeGap)` is an input of type
  `Fin (screenHeight - pipeGap)`, and what `ioutil.WriteFile` does is an input.
* `encoding/json` is modelled on documents flattened to their leaves
  (`Json.Doc`); see the section on JSON.
* Drawing calls are left out: they read the state and never change it. The
  one expression among them that can fail, `frames[bird.Frame]`, is kept: an
  index outside the slice ends the program (`none`).
-/

set_option maxRecDepth 2000

/-! ## float32 -/

/-- A float32 value: NaN, an infinity (`neg` for the negative one), or the
finite value `n * 2^(-149)`. -/
inductive F32 where
  | nan
  | inf (neg : Bool)
  | fin (n : Int)
deriving DecidableEq

namespace F32

/-- The least `k` from `k` on, within `fuel` steps, with `x / 2^k < 2^24`: the
number of low bits that do not fit in a 24-bit significand. -/
def shiftOf : Nat → Nat → Nat → Nat
  | 0, _, k => k
  | fuel + 1, x, k => if x / 2 ^ k < 2 ^ 24 then k else shiftOf fuel x (k + 1)

/-- The magnitude `num / den` (in units of `2^(-149)`) rounded to 24
significant bits, to nearest, ties to even. -/
def roundMag (num den : Nat) : Nat :=
  let k := shiftOf 256 (num / den) 0
  let d := den * 2 ^ k
  let q := num / d
  let r := num % d
  let q1 := if 2 * r < d then q else if d < 2 * r then q + 1 else if q % 2 = 0 then q else q + 1
  q1 * 2 ^ k

/-- The float32 nearest to `± num / den` units; magnitudes that round to
`2^128` or more become an infinity. -/
def round (neg : Bool) (num den : Nat) : F32 :=
  if 2 ^ 128 * 2 ^ 149 ≤ num / den then inf neg
  else
    if 2 ^ 128 * 2 ^ 149 ≤ roundMag num den then inf neg
    else fin (if neg then -((roundMag num den : Nat) : Int) else ((roundMag num den : Nat) : Int))

/-- The conversion `float32(i)` of an integer. -/
def ofInt (i : Int) : F32 := round (decide (i < 0)) (i.natAbs * 2 ^ 149) 1

/-- The float32 constant nearest to the fraction `± a / b`. -/
def ofQuot (neg : Bool) (a b : Nat) : F32 := round neg (a * 2 ^ 149) b

/-- The float32 `m * 2^e`, for `e ≥ -149`. -/
def ofBits (m : Int) (e : Int) : F32 := fin (m * 2 ^ (e + 149).toNat)

def neg : F32 → F32
  | nan => nan
  | inf s => inf (!s)
  | fin n => fin (-n)

def add : F32 → F32 → F32
  | fin a, fin b => round (decide (a + b < 0)) (a + b).natAbs 1
  | fin _, inf s => inf s
  | inf s, fin _ => inf s
  | inf s, inf t => if s = t then inf s else nan
  | _, _ => nan

def sub (a b : F32) : F32 := add a (neg b)

def mul : F32 → F32 → F32
  | fin a, fin b => round (decide (a < 0) != decide (b < 0)) (a.natAbs * b.natAbs) (2 ^ 149)
  | fin a, inf s => if a = 0 then nan else inf (decide (a < 0) != s)
  | inf s, fin b => if b = 0 then nan else inf (s != decide (b < 0))
  | inf s, inf t => inf (s != t)
  | _, _ => nan

/-- The comparison `a < b`; false if either side is NaN. -/
def lt : F32 → F32 → Bool
  | fin a, fin b => decide (a < b)
  | fin _, inf s => !s
  | inf s, fin _ => s
  | inf s, inf t => s && !t
  | _, _ => false

/-- The comparison `a <= b`; false if either side is NaN. -/
def le : F32 → F32 → Bool
  | fin a, fin b => decide (a ≤ b)
  | fin _, inf s => !s
  | inf s, fin _ => s
  | inf s, inf t => s || !t
  | _, _ => false

/-- The comparison `a > b`. -/
def gt (a b : F32) : Bool := lt b a

/-- The comparison `a >= b`. -/
def ge (a b : F32) : Bool := le b a

/-- Neither NaN nor an infinity. -/
def isFinite : F32 → Bool
  | fin _ => true
  | _ => false

/-- A magnitude that a float32 can hold: below `2^128` and with at most 24
significant bits. -/
def isRepr (a : Nat) : Bool :=
  decide (a < 2 ^ 128 * 2 ^ 149) && decide (a % 2 ^ shiftOf 256 a 0 = 0)

/-- A finite float32: the integer is one that the format can hold. -/
def isFloat : F32 → Bool
  | fin n => isRepr n.natAbs
  | _ => false

/-- The exact value of a finite float32 as a rational (`0` for the others). -/
def toRat : F32 → ℚ
  | fin n => (n : ℚ) / 2 ^ 149
  | _ => 0

end F32

/-- The value a 64-bit Go `int` holds after an operation whose exact result is `i`. -/
def wrap64 (i : Int) : Int := (i + 2 ^ 63) % 2 ^ 64 - 2 ^ 63

/-! ## JSON, as far as `encoding/json` is used

`json.MarshalIndent` and `json.Unmarshal` are library code. They are modelled
on documents flattened to their leaves: a document is the list of its leaf
values, each with the path of object keys that leads to it, in document order.
A number is kept as the decimal it is written as, `± mant * 10^exp10`.

* Encoding a float32 fails on NaN and the infinities (the library returns an
  `UnsupportedValueError`). A finite value is written as a decimal that
  denotes it exactly; the library writes the shortest decimal that reads back
  as the same float32, which differs in digits but not in the value read back.
* Decoding a number into a `float32` field rounds the decimal to the nearest
  float32 and fails if that is an infinity; decoding into an `int` field
  needs an integer literal within 64 bits.
* Decoding into a struct starts from the zero value, takes the keys in
  document order, ignores unknown keys and `null`, and fails on a value of
  the wrong kind. Keys are matched exactly.
-/

namespace Json

/-- A leaf of a JSON document. `other` stands for a string, a boolean or an
array. -/
inductive Lit where
  | null
  | emptyObject
  | other
  | num (neg : Bool) (mant : Nat) (exp10 : Int)
deriving DecidableEq

/-- A JSON document flattened to its leaves. -/
abbrev Doc := List (List String × Lit)

/-- The factor `5^149`: `n * 2^(-149) = (n * 5^149) * 10^(-149)`. -/
def pow5 : Nat := 5 ^ 149

/-- The number written for a float32; none for NaN and the infinities. -/
def encodeFloat : F32 → Option Lit
  | F32.fin n => some (Lit.num (decide (n < 0)) (n.natAbs * pow5) (-149))
  | _ => none

/-- The number written for an `int`. -/
def encodeInt (i : Int) : Lit := Lit.num (decide (i < 0)) i.natAbs 0

/-- The float32 read from a leaf; none is a decoding error. -/
def decodeFloat : Lit → Option F32
  | Lit.num neg mant exp10 =>
    let r :=
      if 0 ≤ exp10 then F32.round neg (mant * 10 ^ exp10.toNat * 2 ^ 149) 1
      else F32.round neg (mant * 2 ^ 149) (10 ^ (-exp10).toNat)
    if r.isFinite then some r else none
  | _ => none

/-- The `int` read from a leaf; none is a decoding error. -/
def decodeInt : Lit → Option Int
  | Lit.num neg mant exp10 =>
    let v : Int := if neg then -(mant : Int) else (mant : Int)
    if exp10 = 0 ∧ -(2 ^ 63) ≤ v ∧ v < 2 ^ 63 then some v else none
  | _ => none

end Json

/-- What `ioutil.WriteFile` does when it is called: it writes the whole file,
or fails before touching it, or fails after truncating it. -/
inductive WriteResult where
  | ok
  | openError
  | writeError
deriving DecidableEq

namespace Main

/-! ## Constants (`src/main.go`, lines 14-24) -/

def screenWidth : Nat := 800
def screenHeight : Nat := 450
def gravity : F32 := F32.ofInt 400
def jumpSpeed : F32 := F32.ofInt (-300)
def pipeSpeed : F32 := F32.ofInt 200
def pipeWidth : Nat := 50
def pipeGap : Nat := 150
def frameSpeed : F32 := F32.ofQuot false 1 10

/-- Number of textures in the slice `frames` (lines 118-127), i.e. `len(frames)`. -/
def framesLen : Nat := 8

/-! ## Data (`src/main.go`, lines 26-41) -/

/-- The raylib type `rl.Vector2`. -/
structure Vector2 where
  X : F32
  Y : F32
deriving DecidableEq

structure Bird where
  Position : Vector2
  Speed : F32
  Frame : Int
deriving DecidableEq

structure Pipe where
  Position : Vector2
  GapY : F32
deriving DecidableEq

structure GameState where
  Bird : Bird
  Pipe : Pipe
  Score : Int
deriving DecidableEq

/-- What `savegame.json` holds: nothing, bytes that cannot be read, bytes that
are not a JSON document, or a JSON document. -/
inductive SaveFile where
  | absent
  | unreadable
  | malformed
  | json (doc : Json.Doc)
deriving DecidableEq

/-- The local variables of `main` that the loop changes (lines 135-140),
together with the save file. -/
structure Game where
  bird : Bird
  pipe : Pipe
  score : Int
  gameOver : Bool
  frameCounter : F32
  disk : SaveFile
deriving DecidableEq

/-- What one loop iteration reads from outside: the four keys, the frame
time, the value `rand.Intn(screenHeight-pipeGap)` returns if it is called, and
what `ioutil.WriteFile` does if it is called. -/
structure Input where
  KeyW : Bool
  KeyR : Bool
  KeyS : Bool
  KeyL : Bool
  dt : F32
  draw : Fin (screenHeight - pipeGap)
  write : WriteResult

/-! ## Constructors (lines 43-63) -/

/-- Lines 43-49. -/
def NewBird : Bird :=
  { Position := { X := F32.ofInt 100, Y := F32.ofInt ((screenHeight / 2 : Nat) : Int) }
    Speed := F32.ofInt 0
    Frame := 0 }

/-- Lines 51-57; `draw` is the value of `rand.Intn(screenHeight-pipeGap)`. -/
def NewPipe (draw : Fin (screenHeight - pipeGap)) : Pipe :=
  let gapY : F32 := F32.add (F32.ofInt ((draw : Nat) : Int)) (F32.ofQuot false pipeGap 2)
  { Position := { X := F32.ofInt (screenWidth : Int), Y := F32.ofInt 0 }
    GapY := gapY }

/-- Lines 59-63: the three pointers are the fields of `Game`. -/
def ResetGame (draw : Fin (screenHeight - pipeGap)) (g : Game) : Game :=
  { g with bird := NewBird, pipe := NewPipe draw, score := 0 }

/-! ## Persistence (lines 65-108) -/

/-- The document `json.MarshalIndent` writes for a `GameState`: one leaf per
field, in the order of the struct declarations; none if a float32 field is NaN
or an infinity. -/
def Marshal (s : GameState) : Option Json.Doc :=
  match Json.encodeFloat s.Bird.Position.X, Json.encodeFloat s.Bird.Position.Y,
    Json.encodeFloat s.Bird.Speed, Json.encodeFloat s.Pipe.Position.X,
    Json.encodeFloat s.Pipe.Position.Y, Json.encodeFloat s.Pipe.GapY with
  | some bx, some bY, some bs, some px, some pY, some pg =>
    some [(["Bird", "Position", "X"], bx), (["Bird", "Position", "Y"], bY),
      (["Bird", "Speed"], bs), (["Bird", "Frame"], Json.encodeInt s.Bird.Frame),
      (["Pipe", "Position", "X"], px), (["Pipe", "Position", "Y"], pY),
      (["Pipe", "GapY"], pg), (["Score"], Json.encodeInt s.Score)]
  | _, _, _, _, _, _ => none

/-- The zero value of `GameState` (`var state GameState`, line 98). -/
def zeroState : GameState :=
  { Bird := { Position := { X := F32.fin 0, Y := F32.fin 0 }, Speed := F32.fin 0, Frame := 0 }
    Pipe := { Position := { X := F32.fin 0, Y := F32.fin 0 }, GapY := F32.fin 0 }
    Score := 0 }

/-- The paths at which a `GameState` holds a struct. -/
def structPaths : List (List String) :=
  [[], ["Bird"], ["Bird", "Position"], ["Pipe"], ["Pipe", "Position"]]

/-- The paths at which a `GameState` holds a number. -/
def leafPaths : List (List String) :=
  [["Bird", "Position", "X"], ["Bird", "Position", "Y"], ["Bird", "Speed"], ["Bird", "Frame"],
    ["Pipe", "Position", "X"], ["Pipe", "Position", "Y"], ["Pipe", "GapY"], ["Score"]]

/-- One leaf of the document decoded into the state; none is a decoding error. -/
def setLeaf (st : GameState) (path : List String) (v : Json.Lit) : Option GameState :=
  if v = Json.Lit.null then some st
  else if path = ["Bird", "Position", "X"] then
    (Json.decodeFloat v).map fun x =>
      { st with Bird := { st.Bird with Position := { st.Bird.Position with X := x } } }
  else if path = ["Bird", "Position", "Y"] then
    (Json.decodeFloat v).map fun x =>
      { st with Bird := { st.Bird with Position := { st.Bird.Position with Y := x } } }
  else if path = ["Bird", "Speed"] then
    (Json.decodeFloat v).map fun x => { st with Bird := { st.Bird with Speed := x } }
  else if path = ["Bird", "Frame"] then
    (Json.decodeInt v).map fun x => { st with Bird := { st.Bird with Frame := x } }
  else if path = ["Pipe", "Position", "X"] then
    (Json.decodeFloat v).map fun x =>
      { st with Pipe := { st.Pipe with Position := { st.Pipe.Position with X := x } } }
  else if path = ["Pipe", "Position", "Y"] then
    (Json.decodeFloat v).map fun x =>
      { st with Pipe := { st.Pipe with Position := { st.Pipe.Position with Y := x } } }
  else if path = ["Pipe", "GapY"] then
    (Json.decodeFloat v).map fun x => { st with Pipe := { st.Pipe with GapY := x } }
  else if path = ["Score"] then
    (Json.decodeInt v).map fun x => { st with Score := x }
  else if path ∈ structPaths then
    (if v = Json.Lit.emptyObject then some st else none)
  else if leafPaths.any (fun p => p.isPrefixOf path) then none
  else some st

/-- The state `json.Unmarshal` decodes from a document; none is a decoding error. -/
def Unmarshal (doc : Json.Doc) : Option GameState :=
  doc.foldlM (fun st leaf => setLeaf st leaf.1 leaf.2) zeroState

/-- Lines 66-83: the new content of the save file and the line printed, if
any. `w` is what `ioutil.WriteFile` does if it is reached. -/
def SaveGame (w : WriteResult) (disk : SaveFile) (bird : Bird) (pipe : Pipe) (score : Int) :
    SaveFile × Option String :=
  let state : GameState := { Bird := bird, Pipe := pipe, Score := score }
  match Marshal state with
  | none => (disk, some "Error saving game")
  | some file =>
    match w with
    | WriteResult.ok => (SaveFile.json file, none)
    | WriteResult.openError => (disk, some "Error writing to file")
    | WriteResult.writeError => (SaveFile.malformed, some "Error writing to file")

/-- Lines 86-108: the values left behind the three pointers, and the line the
function prints, if any. The function itself returns nothing. -/
def LoadGame (disk : SaveFile) (b : Bird) (p : Pipe) (score : Int) :
    (Bird × Pipe × Int) × Option String :=
  match disk with
  | SaveFile.absent => ((b, p, score), some "No save file found")
  | SaveFile.unreadable => ((b, p, score), some "Error reading save file")
  | SaveFile.malformed => ((b, p, score), some "Error loading game")
  | SaveFile.json file =>
    match Unmarshal file with
    | none => ((b, p, score), some "Error loading game")
    | some state => ((state.Bird, state.Pipe, state.Score), none)

/-! ## The loop body (lines 143-220) -/

/-- Lines 160-162. -/
def jump (keyW : Bool) (b : Bird) : Bird :=
  if keyW then { b with Speed := jumpSpeed } else b

/-- Lines 163-164: the speed is updated first and the new speed moves the bird. -/
def integrate (dt : F32) (b : Bird) : Bird :=
  let speed := F32.add b.Speed (F32.mul gravity dt)
  { b with Speed := speed
           Position := { b.Position with Y := F32.add b.Position.Y (F32.mul speed dt) } }

/-- Lines 166-170. -/
def checkBounds (g : Game) : Game :=
  if F32.lt g.bird.Position.Y (F32.ofInt 0) then
    { g with bird := { g.bird with Position := { g.bird.Position with Y := F32.ofInt 0 } } }
  else if F32.gt g.bird.Position.Y (F32.ofInt (screenHeight : Int)) then
    { g with gameOver := true }
  else g

/-- Lines 172-177. -/
def movePipe (dt : F32) (draw : Fin (screenHeight - pipeGap)) (g : Game) : Game :=
  let x := F32.sub g.pipe.Position.X (F32.mul pipeSpeed dt)
  if F32.lt x (F32.ofInt (-(pipeWidth : Int))) then
    { g with pipe := NewPipe draw, score := wrap64 (g.score + 1) }
  else
    { g with pipe := { g.pipe with Position := { g.pipe.Position with X := x } } }

/-- The condition of lines 179-180. -/
def collides (b : Bird) (p : Pipe) : Bool :=
  (F32.gt (F32.add b.Position.X (F32.ofInt 20)) p.Position.X &&
    F32.lt b.Position.X (F32.add p.Position.X (F32.ofInt (pipeWidth : Int)))) &&
  (F32.lt b.Position.Y (F32.sub p.GapY (F32.ofInt ((pipeGap / 2 : Nat) : Int))) ||
    F32.gt b.Position.Y (F32.add p.GapY (F32.ofInt ((pipeGap / 2 : Nat) : Int))))

/-- Lines 179-183. -/
def checkCollision (g : Game) : Game :=
  if collides g.bird g.pipe then { g with gameOver := true } else g

/-- Lines 186-193. -/
def animate (dt : F32) (g : Game) : Game :=
  let counter := F32.add g.frameCounter dt
  if F32.ge counter frameSpeed then
    let frame := wrap64 (g.bird.Frame + 1)
    { g with bird := { g.bird with Frame := if frame ≥ (framesLen : Int) then 0 else frame }
             frameCounter := F32.ofInt 0 }
  else
    { g with frameCounter := counter }

/-- The state changes of the `else` branch of the loop (lines 160-193). -/
def playingUpdate (keyW : Bool) (dt : F32) (draw : Fin (screenHeight - pipeGap)) (g : Game) :
    Game :=
  animate dt (checkCollision (movePipe dt draw (checkBounds
    { g with bird := integrate dt (jump keyW g.bird) })))

/-- The `else` branch of the loop (lines 158-204): the state changes, then the
lookup `frames[bird.Frame]` of line 196, which ends the program if the index is
outside the slice. -/
def playingTick (keyW : Bool) (dt : F32) (draw : Fin (screenHeight - pipeGap)) (g : Game) :
    Option Game :=
  let g1 := playingUpdate keyW dt draw g
  if 0 ≤ g1.bird.Frame ∧ g1.bird.Frame < (framesLen : Int) then some g1 else none

/-- The `if gameOver` branch of the loop (lines 147-157), drawing left out. -/
def gameOverTick (keyR : Bool) (draw : Fin (screenHeight - pipeGap)) (g : Game) : Game :=
  if keyR then { ResetGame draw g with gameOver := false } else g

/-- Lines 147-204: one of the two branches, chosen by `gameOver`. -/
def tick (inp : Input) (g : Game) : Option Game :=
  if g.gameOver then some (gameOverTick inp.KeyR inp.draw g)
  else playingTick inp.KeyW inp.dt inp.draw g

/-- Lines 207-210. -/
def saveAction (w : WriteResult) (g : Game) : Game :=
  { g with disk := (SaveGame w g.disk g.bird g.pipe g.score).1 }

/-- Lines 213-217: `gameOver` is cleared whatever `LoadGame` did. -/
def loadAction (g : Game) : Game :=
  let r := (LoadGame g.disk g.bird g.pipe g.score).1
  { g with bird := r.1, pipe := r.2.1, score := r.2.2, gameOver := false }

/-- Lines 207-217: the save key, then the load key. -/
def serviceKeys (inp : Input) (g : Game) : Game :=
  let g2 := if inp.KeyS then saveAction inp.write g else g
  if inp.KeyL then loadAction g2 else g2

/-- One iteration of the loop (lines 143-220); none if the program has ended
in a panic. -/
def frame (inp : Input) (g : Game) : Option Game :=
  (tick inp g).map (serviceKeys inp)

/-- The state on entry to the loop (lines 135-140); no save file yet. -/
def init (draw : Fin (screenHeight - pipeGap)) : Game :=
  { bird := NewBird, pipe := NewPipe draw, score := 0, gameOver := false
    frameCounter := F32.fin 0, disk := SaveFile.absent }

/-- The loop run over a list of inputs, first input first. -/
def run : List Input → Game → Option Game
  | [], g => some g
  | inp :: rest, g =>
    match frame inp g with
    | none => none
    | some g1 => run rest g1

end Main

namespace FlappyBird

/-! ## Constants (`src/FlappyBird/main.go`, lines 16-25) -/

def screenWidth : Nat := 800
def screenHeight : Nat := 450
def gravity : F32 := F32.ofInt 400
def jumpSpeed : F32 := F32.ofInt (-300)
def pipeSpeed : F32 := F32.ofInt 200
def pipeWidth : Nat := 50
def pipeGap : Nat := 150

/-! ## Data (`src/FlappyBird/main.go`, lines 27-41) -/

/-- The raylib type `rl.Vector2`. -/
structure Vector2 where
  X : F32
  Y : F32
deriving DecidableEq

structure Bird where
  Position : Vector2
  Speed : F32
deriving DecidableEq

structure Pipe where
  Position : Vector2
  GapY : F32
deriving DecidableEq

structure GameState where
  Bird : Bird
  Pipe : Pipe
  Score : Int
deriving DecidableEq

/-- What `savegame.json` holds: nothing, bytes that cannot be read, bytes that
are not a JSON document, or a JSON document. -/
inductive SaveFile where
  | absent
  | unreadable
  | malformed
  | json (doc : Json.Doc)
deriving DecidableEq

/-- The local variables of `main` that the loop changes (lines 117-120),
together with the save file. -/
structure Game where
  bird : Bird
  pipe : Pipe
  score : Int
  gameOver : Bool
  disk : SaveFile
deriving DecidableEq

/-- What one loop iteration reads from outside: the four keys, the frame
time, the value `rand.Intn(screenHeight-pipeGap)` returns if it is called, and
what `ioutil.WriteFile` does if it is called. -/
structure Input where
  KeyW : Bool
  KeyR : Bool
  KeyS : Bool
  KeyL : Bool
  dt : F32
  draw : Fin (screenHeight - pipeGap)
  write : WriteResult

/-! ## Constructors (lines 88-107) -/

/-- Lines 88-93. -/
def NewBird : Bird :=
  { Position := { X := F32.ofInt 100, Y := F32.ofInt ((screenHeight / 2 : Nat) : Int) }
    Speed := F32.ofInt 0 }

/-- Lines 95-101; `draw` is the value of `rand.Intn(screenHeight-pipeGap)`. -/
def NewPipe (draw : Fin (screenHeight - pipeGap)) : Pipe :=
  let gapY : F32 := F32.add (F32.ofInt ((draw : Nat) : Int)) (F32.ofQuot false pipeGap 2)
  { Position := { X := F32.ofInt (screenWidth : Int), Y := F32.ofInt 0 }
    GapY := gapY }

/-- Lines 103-107: the three pointers are the fields of `Game`. -/
def ResetGame (draw : Fin (screenHeight - pipeGap)) (g : Game) : Game :=
  { g with bird := NewBird, pipe := NewPipe draw, score := 0 }

/-! ## Persistence (lines 43-86) -/

/-- The document `json.MarshalIndent` writes for a `GameState`: one leaf per
field, in the order of the struct declarations; none if a float32 field is NaN
or an infinity. -/
def Marshal (s : GameState) : Option Json.Doc :=
  match Json.encodeFloat s.Bird.Position.X, Json.encodeFloat s.Bird.Position.Y,
    Json.encodeFloat s.Bird.Speed, Json.encodeFloat s.Pipe.Position.X,
    Json.encodeFloat s.Pipe.Position.Y, Json.encodeFloat s.Pipe.GapY with
  | some bx, some bY, some bs, some px, some pY, some pg =>
    some [(["Bird", "Position", "X"], bx), (["Bird", "Position", "Y"], bY),
      (["Bird", "Speed"], bs),
      (["Pipe", "Position", "X"], px), (["Pipe", "Position", "Y"], pY),
      (["Pipe", "GapY"], pg), (["Score"], Json.encodeInt s.Score)]
  | _, _, _, _, _, _ => none

/-- The zero value of `GameState` (`var state GameState`, line 76). -/
def zeroState : GameState :=
  { Bird := { Position := { X := F32.fin 0, Y := F32.fin 0 }, Speed := F32.fin 0 }
    Pipe := { Position := { X := F32.fin 0, Y := F32.fin 0 }, GapY := F32.fin 0 }
    Score := 0 }

/-- The paths at which a `GameState` holds a struct. -/
def structPaths : List (List String) :=
  [[], ["Bird"], ["Bird", "Position"], ["Pipe"], ["Pipe", "Position"]]

/-- The paths at which a `GameState` holds a number. -/
def leafPaths : List (List String) :=
  [["Bird", "Position", "X"], ["Bird", "Position", "Y"], ["Bird", "Speed"],
    ["Pipe", "Position", "X"], ["Pipe", "Position", "Y"], ["Pipe", "GapY"], ["Score"]]

/-- One leaf of the document decoded into the state; none is a decoding error. -/
def setLeaf (st : GameState) (path : List String) (v : Json.Lit) : Option GameState :=
  if v = Json.Lit.null then some st
  else if path = ["Bird", "Position", "X"] then
    (Json.decodeFloat v).map fun x =>
      { st with Bird := { st.Bird with Position := { st.Bird.Position with X := x } } }
  else if path = ["Bird", "Position", "Y"] then
    (Json.decodeFloat v).map fun x =>
      { st with Bird := { st.Bird with Position := { st.Bird.Position with Y := x } } }
  else if path = ["Bird", "Speed"] then
    (Json.decodeFloat v).map fun x => { st with Bird := { st.Bird with Speed := x } }
  else if path = ["Pipe", "Position", "X"] then
    (Json.decodeFloat v).map fun x =>
      { st with Pipe := { st.Pipe with Position := { st.Pipe.Position with X := x } } }
  else if path = ["Pipe", "Position", "Y"] then
    (Json.decodeFloat v).map fun x =>
      { st with Pipe := { st.Pipe with Position := { st.Pipe.Position with Y := x } } }
  else if path = ["Pipe", "GapY"] then
    (Json.decodeFloat v).map fun x => { st with Pipe := { st.Pipe with GapY := x } }
  else if path = ["Score"] then
    (Json.decodeInt v).map fun x => { st with Score := x }
  else if path ∈ structPaths then
    (if v = Json.Lit.emptyObject then some st else none)
  else if leafPaths.any (fun p => p.isPrefixOf path) then none
  else some st

/-- The state `json.Unmarshal` decodes from a document; none is a decoding error. -/
def Unmarshal (doc : Json.Doc) : Option GameState :=
  doc.foldlM (fun st leaf => setLeaf st leaf.1 leaf.2) zeroState

/-- Lines 44-61: the new content of the save file and the line printed, if
any. `w` is what `ioutil.WriteFile` does if it is reached. -/
def SaveGame (w : WriteResult) (disk : SaveFile) (bird : Bird) (pipe : Pipe) (score : Int) :
    SaveFile × Option String :=
  let state : GameState := { Bird := bird, Pipe := pipe, Score := score }
  match Marshal state with
  | none => (disk, some "Error saving game")
  | some file =>
    match w with
    | WriteResult.ok => (SaveFile.json file, none)
    | WriteResult.openError => (disk, some "Error writing to file")
    | WriteResult.writeError => (SaveFile.malformed, some "Error writing to file")

/-- Lines 64-86: the values left behind the three pointers, and the line the
function logs, if any. The function itself returns nothing. -/
def LoadGame (disk : SaveFile) (b : Bird) (p : Pipe) (score : Int) :
    (Bird × Pipe × Int) × Option String :=
  match disk with
  | SaveFile.absent => ((b, p, score), some "No save file found")
  | SaveFile.unreadable => ((b, p, score), some "Error reading save file")
  | SaveFile.malformed => ((b, p, score), some "Error loading game")
  | SaveFile.json file =>
    match Unmarshal file with
    | none => ((b, p, score), some "Error loading game")
    | some state => ((state.Bird, state.Pipe, state.Score), none)

/-! ## The loop body (lines 122-183) -/

/-- Lines 136-138. -/
def jump (keyW : Bool) (b : Bird) : Bird :=
  if keyW then { b with Speed := jumpSpeed } else b

/-- Lines 139-140: the speed is updated first and the new speed moves the bird. -/
def integrate (dt : F32) (b : Bird) : Bird :=
  let speed := F32.add b.Speed (F32.mul gravity dt)
  { b with Speed := speed
           Position := { b.Position with Y := F32.add b.Position.Y (F32.mul speed dt) } }

/-- Lines 142-146. -/
def checkBounds (g : Game) : Game :=
  if F32.lt g.bird.Position.Y (F32.ofInt 0) then
    { g with bird := { g.bird with Position := { g.bird.Position with Y := F32.ofInt 0 } } }
  else if F32.gt g.bird.Position.Y (F32.ofInt (screenHeight : Int)) then
    { g with gameOver := true }
  else g

/-- Lines 148-153. -/
def movePipe (dt : F32) (draw : Fin (screenHeight - pipeGap)) (g : Game) : Game :=
  let x := F32.sub g.pipe.Position.X (F32.mul pipeSpeed dt)
  if F32.lt x (F32.ofInt (-(pipeWidth : Int))) then
    { g with pipe := NewPipe draw, score := wrap64 (g.score + 1) }
  else
    { g with pipe := { g.pipe with Position := { g.pipe.Position with X := x } } }

/-- The condition of lines 155-156. -/
def collides (b : Bird) (p : Pipe) : Bool :=
  (F32.gt (F32.add b.Position.X (F32.ofInt 20)) p.Position.X &&
    F32.lt b.Position.X (F32.add p.Position.X (F32.ofInt (pipeWidth : Int)))) &&
  (F32.lt b.Position.Y (F32.sub p.GapY (F32.ofInt ((pipeGap / 2 : Nat) : Int))) ||
    F32.gt b.Position.Y (F32.add p.GapY (F32.ofInt ((pipeGap / 2 : Nat) : Int))))

/-- Lines 155-159. -/
def checkCollision (g : Game) : Game :=
  if collides g.bird g.pipe then { g with gameOver := true } else g

/-- The `else` branch of the loop (lines 135-167), drawing left out. -/
def playingTick (keyW : Bool) (dt : F32) (draw : Fin (screenHeight - pipeGap)) (g : Game) :
    Game :=
  checkCollision (movePipe dt draw (checkBounds
    { g with bird := integrate dt (jump keyW g.bird) }))

/-- The `if gameOver` branch of the loop (lines 126-134), drawing left out. -/
def gameOverTick (keyR : Bool) (draw : Fin (screenHeight - pipeGap)) (g : Game) : Game :=
  if keyR then { ResetGame draw g with gameOver := false } else g

/-- Lines 126-167: one of the two branches, chosen by `gameOver`. -/
def tick (inp : Input) (g : Game) : Game :=
  if g.gameOver then gameOverTick inp.KeyR inp.draw g
  else playingTick inp.KeyW inp.dt inp.draw g

/-- Lines 170-173. -/
def saveAction (w : WriteResult) (g : Game) : Game :=
  { g with disk := (SaveGame w g.disk g.bird g.pipe g.score).1 }

/-- Lines 176-180: `gameOver` is cleared whatever `LoadGame` did. -/
def loadAction (g : Game) : Game :=
  let r := (LoadGame g.disk g.bird g.pipe g.score).1
  { g with bird := r.1, pipe := r.2.1, score := r.2.2, gameOver := false }

/-- Lines 170-180: the save key, then the load key. -/
def serviceKeys (inp : Input) (g : Game) : Game :=
  let g2 := if inp.KeyS then saveAction inp.write g else g
  if inp.KeyL then loadAction g2 else g2

/-- One iteration of the loop (lines 122-183). -/
def frame (inp : Input) (g : Game) : Game :=
  serviceKeys inp (tick inp g)

/-- The state on entry to the loop (lines 117-120); no save file yet. -/
def init (draw : Fin (screenHeight - pipeGap)) : Game :=
  { bird := NewBird, pipe := NewPipe draw, score := 0, gameOver := false
    disk := SaveFile.absent }

/-- The loop run over a list of inputs, first input first. -/
def run (inputs : List Input) (g : Game) : Game :=
  inputs.foldl (fun s inp => frame inp s) g

end FlappyBird

/-! # Concrete values and states used in the examples below -/

/-- The float32 nearest to `1/60`, the frame time at 60 frames per second. -/
def dt60 : F32 := F32.ofBits 8947849 (-29)

/-- The float32 nearest to `0.1`. -/
def dt10 : F32 := F32.ofBits 13421773 (-27)

/-- A bird of the animated game at `x = 100`, height `y`, speed `v`, frame `f`. -/
def Main.birdAt (y v : F32) (f : Int) : Main.Bird :=
  { Position := { X := F32.ofInt 100, Y := y }, Speed := v, Frame := f }

/-- A pipe of the animated game at `x` with gap centre `gapY`. -/
def Main.pipeAt (x gapY : F32) : Main.Pipe :=
  { Position := { X := x, Y := F32.ofInt 0 }, GapY := gapY }

/-- A state of the animated game with zero animation counter and no save file. -/
def Main.gameOf (b : Main.Bird) (p : Main.Pipe) (score : Int) (gameOver : Bool) : Main.Game :=
  { bird := b, pipe := p, score := score, gameOver := gameOver, frameCounter := F32.ofInt 0
    disk := Main.SaveFile.absent }

/-- A bird of the plain game at `x = 100`, height `y`, speed `v`. -/
def FlappyBird.birdAt (y v : F32) : FlappyBird.Bird :=
  { Position := { X := F32.ofInt 100, Y := y }, Speed := v }

/-- A pipe of the plain game at `x` with gap centre `gapY`. -/
def FlappyBird.pipeAt (x gapY : F32) : FlappyBird.Pipe :=
  { Position := { X := x, Y := F32.ofInt 0 }, GapY := gapY }

/-- A state of the plain game with no save file. -/
def FlappyBird.gameOf (b : FlappyBird.Bird) (p : FlappyBird.Pipe) (score : Int)
    (gameOver : Bool) : FlappyBird.Game :=
  { bird := b, pipe := p, score := score, gameOver := gameOver
    disk := FlappyBird.SaveFile.absent }

/-- An input with no key pressed and a disk that can be written. -/
def Main.idle (dt : F32) (draw : Fin (Main.screenHeight - Main.pipeGap)) : Main.Input :=
  { KeyW := false, KeyR := false, KeyS := false, KeyL := false, dt := dt, draw := draw
    write := WriteResult.ok }

/-! # Predicates used in the statements below -/

/-- A 64-bit integer. -/
def isInt64 (i : Int) : Bool := decide (-(2 ^ 63) ≤ i) && decide (i < 2 ^ 63)

/-- Every float32 field holds a finite float32 and every `int` field a 64-bit
integer. A state of the Go program can fail this only by holding NaN or an
infinity. -/
def Main.finiteState (s : Main.GameState) : Bool :=
  s.Bird.Position.X.isFloat && s.Bird.Position.Y.isFloat && s.Bird.Speed.isFloat &&
  isInt64 s.Bird.Frame && s.Pipe.Position.X.isFloat && s.Pipe.Position.Y.isFloat &&
  s.Pipe.GapY.isFloat && isInt64 s.Score

/-- Every float32 field holds a finite float32 and the score a 64-bit integer. -/
def FlappyBird.finiteState (s : FlappyBird.GameState) : Bool :=
  s.Bird.Position.X.isFloat && s.Bird.Position.Y.isFloat && s.Bird.Speed.isFloat &&
  s.Pipe.Position.X.isFloat && s.Pipe.Position.Y.isFloat &&
  s.Pipe.GapY.isFloat && isInt64 s.Score

theorem F32.shiftOf_spec (fuel x : Nat) :
    ∀ k, x / 2 ^ (k + fuel) < 2 ^ 24 →
      k ≤ F32.shiftOf fuel x k ∧ x / 2 ^ F32.shiftOf fuel x k < 2 ^ 24 ∧
        ∀ j, k ≤ j → j < F32.shiftOf fuel x k → 2 ^ 24 ≤ x / 2 ^ j := by
  induction fuel with
  | zero =>
    intro k h
    refine ⟨le_refl _, by simpa [F32.shiftOf] using h, ?_⟩
    intro j hj hj2
    simp only [F32.shiftOf] at hj2
    omega
  | succ fuel ih =>
    intro k h
    by_cases hk : x / 2 ^ k < 2 ^ 24
    · have e : F32.shiftOf (fuel + 1) x k = k := by
        show (if x / 2 ^ k < 2 ^ 24 then k else F32.shiftOf fuel x (k + 1)) = k
        exact if_pos hk
      rw [e]
      refine ⟨le_refl _, hk, ?_⟩
      intro j hj hj2
      omega
    · have e : F32.shiftOf (fuel + 1) x k = F32.shiftOf fuel x (k + 1) := by
        show (if x / 2 ^ k < 2 ^ 24 then k else F32.shiftOf fuel x (k + 1)) = _
        exact if_neg hk
      rw [e]
      have h2 : x / 2 ^ (k + 1 + fuel) < 2 ^ 24 := by
        have : k + 1 + fuel = k + (fuel + 1) := by omega
        rw [this]; exact h
      obtain ⟨a, b, c⟩ := ih (k + 1) h2
      refine ⟨by omega, b, ?_⟩
      intro j hj hj2
      by_cases hjk : j = k
      · subst hjk; exact not_lt.mp hk
      · exact c j (by omega) hj2

/-- Below `2^277` the fuel of `shiftOf` is enough. -/
theorem F32.shiftOf_lt (x : Nat) (h : x < 2 ^ 128 * 2 ^ 149) :
    x / 2 ^ F32.shiftOf 256 x 0 < 2 ^ 24 := by
  have h0 : x / 2 ^ (0 + 256) < 2 ^ 24 := by
    rw [Nat.div_lt_iff_lt_mul (by positivity)]
    calc x < 2 ^ 128 * 2 ^ 149 := h
      _ ≤ 2 ^ 24 * 2 ^ (0 + 256) := by norm_num
  exact (F32.shiftOf_spec 256 x 0 h0).2.1

/-- The shift is the least one. -/
theorem F32.shiftOf_le (x j : Nat) (h : x < 2 ^ 128 * 2 ^ 149) (hj : x / 2 ^ j < 2 ^ 24) :
    F32.shiftOf 256 x 0 ≤ j := by
  have h0 : x / 2 ^ (0 + 256) < 2 ^ 24 := by
    rw [Nat.div_lt_iff_lt_mul (by positivity)]
    calc x < 2 ^ 128 * 2 ^ 149 := h
      _ ≤ 2 ^ 24 * 2 ^ (0 + 256) := by norm_num
  by_contra hc
  have := (F32.shiftOf_spec 256 x 0 h0).2.2 j (Nat.zero_le _) (by omega)
  omega

/-- One bit less does not fit. -/
theorem F32.shiftOf_pred (x : Nat) (h : x < 2 ^ 128 * 2 ^ 149)
    (hpos : 0 < F32.shiftOf 256 x 0) :
    2 ^ 24 * 2 ^ (F32.shiftOf 256 x 0 - 1) ≤ x := by
  have h0 : x / 2 ^ (0 + 256) < 2 ^ 24 := by
    rw [Nat.div_lt_iff_lt_mul (by positivity)]
    calc x < 2 ^ 128 * 2 ^ 149 := h
      _ ≤ 2 ^ 24 * 2 ^ (0 + 256) := by norm_num
  have := (F32.shiftOf_spec 256 x 0 h0).2.2 (F32.shiftOf 256 x 0 - 1) (Nat.zero_le _) (by omega)
  exact (Nat.le_div_iff_mul_le (by positivity)).mp this

/-! ## Rounding: representable magnitudes -/

theorem F32.isRepr_iff (a : Nat) :
    F32.isRepr a = true ↔ a < 2 ^ 128 * 2 ^ 149 ∧ a % 2 ^ F32.shiftOf 256 a 0 = 0 := by
  simp [F32.isRepr]

/-- A magnitude `m * 2^j` with `m < 2^24`, below `2^277`, is representable. -/
theorem F32.isRepr_intro (a m j : Nat) (ha : a < 2 ^ 128 * 2 ^ 149) (hm : m < 2 ^ 24)
    (e : a = m * 2 ^ j) : F32.isRepr a = true := by
  rw [F32.isRepr_iff]
  refine ⟨ha, ?_⟩
  have hj : a / 2 ^ j < 2 ^ 24 := by
    rw [e, Nat.mul_div_cancel _ (by positivity)]; exact hm
  have hk := F32.shiftOf_le a j ha hj
  have hj2 : 2 ^ j ∣ a := ⟨m, by rw [e, mul_comm]⟩
  exact Nat.mod_eq_zero_of_dvd (dvd_trans (pow_dvd_pow 2 hk) hj2)

/-- A representable magnitude is `m * 2^j` with `m < 2^24`. -/
theorem F32.isRepr_elim (a : Nat) (h : F32.isRepr a = true) :
    a < 2 ^ 128 * 2 ^ 149 ∧ ∃ m j, m < 2 ^ 24 ∧ a = m * 2 ^ j := by
  rw [F32.isRepr_iff] at h
  refine ⟨h.1, a / 2 ^ F32.shiftOf 256 a 0, F32.shiftOf 256 a 0, F32.shiftOf_lt a h.1, ?_⟩
  exact (Nat.div_mul_cancel (Nat.dvd_of_mod_eq_zero h.2)).symm

/-! ## Rounding: exactness and monotonicity -/

/-- A representable magnitude is left alone. -/
theorem F32.roundMag_exact (a den : Nat) (hden : 0 < den) (h : F32.isRepr a = true) :
    F32.roundMag (a * den) den = a := by
  rw [F32.isRepr_iff] at h
  obtain ⟨_, hmod⟩ := h
  have hx : a * den / den = a := Nat.mul_div_cancel _ hden
  simp only [F32.roundMag, hx]
  have hq : a * den / (den * 2 ^ F32.shiftOf 256 a 0) = a / 2 ^ F32.shiftOf 256 a 0 := by
    rw [mul_comm den]; exact Nat.mul_div_mul_right _ _ hden
  have hr : a * den % (den * 2 ^ F32.shiftOf 256 a 0) = 0 := by
    rw [mul_comm den, Nat.mul_mod_mul_right, hmod, zero_mul]
  have hd : 0 < den * 2 ^ F32.shiftOf 256 a 0 := by positivity
  rw [hq, hr]
  simp only [mul_zero, hd, if_true]
  exact Nat.div_mul_cancel (Nat.dvd_of_mod_eq_zero hmod)

/-- What `roundMag` returns lies between the magnitude cut to the shift and
one step above. -/
theorem F32.roundMag_bounds (a : Nat) :
    a / 2 ^ F32.shiftOf 256 a 0 * 2 ^ F32.shiftOf 256 a 0 ≤ F32.roundMag a 1 ∧
    F32.roundMag a 1 ≤ (a / 2 ^ F32.shiftOf 256 a 0 + 1) * 2 ^ F32.shiftOf 256 a 0 := by
  simp only [F32.roundMag, Nat.div_one, one_mul]
  constructor
  · apply Nat.mul_le_mul_right
    split_ifs <;> omega
  · apply Nat.mul_le_mul_right
    split_ifs <;> omega

/-- A representable magnitude below the argument is below the rounded value. -/
theorem F32.roundMag_ge (a c : Nat) (hca : c ≤ a) (ha : a < 2 ^ 128 * 2 ^ 149)
    (hc : F32.isRepr c = true) : c ≤ F32.roundMag a 1 := by
  obtain ⟨hcb, m, j, hm, e⟩ := F32.isRepr_elim c hc
  refine le_trans ?_ (F32.roundMag_bounds a).1
  by_cases hk : F32.shiftOf 256 a 0 ≤ j
  · have hdvd : 2 ^ F32.shiftOf 256 a 0 ∣ c :=
      dvd_trans (pow_dvd_pow 2 hk) ⟨m, by rw [e, mul_comm]⟩
    obtain ⟨t, ht⟩ := hdvd
    have hq : t ≤ a / 2 ^ F32.shiftOf 256 a 0 := by
      rw [Nat.le_div_iff_mul_le (by positivity)]
      rw [mul_comm, ← ht]; exact hca
    calc c = t * 2 ^ F32.shiftOf 256 a 0 := by rw [ht, mul_comm]
      _ ≤ a / 2 ^ F32.shiftOf 256 a 0 * 2 ^ F32.shiftOf 256 a 0 := Nat.mul_le_mul_right _ hq
  · have hpos : 0 < F32.shiftOf 256 a 0 := by omega
    have h1 := F32.shiftOf_pred a ha hpos
    have hS : F32.shiftOf 256 a 0 = (F32.shiftOf 256 a 0 - 1) + 1 := by omega
    have h5 : 2 ^ 23 * 2 ^ F32.shiftOf 256 a 0 ≤ a := by
      have : 2 ^ 23 * 2 ^ F32.shiftOf 256 a 0 = 2 ^ 24 * 2 ^ (F32.shiftOf 256 a 0 - 1) := by
        conv_lhs => rw [hS, pow_succ]
        ring
      rw [this]; exact h1
    have hq : 2 ^ 23 ≤ a / 2 ^ F32.shiftOf 256 a 0 :=
      (Nat.le_div_iff_mul_le (by positivity)).mpr h5
    have h2 : 2 ^ (j + 1) ≤ 2 ^ F32.shiftOf 256 a 0 :=
      Nat.pow_le_pow_right (by norm_num) (by omega)
    have h3 : c < 2 ^ 24 * 2 ^ j := by
      rw [e]; exact Nat.mul_lt_mul_of_pos_right hm (by positivity)
    calc c ≤ 2 ^ 24 * 2 ^ j := le_of_lt h3
      _ = 2 ^ 23 * 2 ^ (j + 1) := by rw [pow_succ]; ring
      _ ≤ 2 ^ 23 * 2 ^ F32.shiftOf 256 a 0 := Nat.mul_le_mul_left _ h2
      _ ≤ a / 2 ^ F32.shiftOf 256 a 0 * 2 ^ F32.shiftOf 256 a 0 := Nat.mul_le_mul_right _ hq

/-- What `roundMag` returns is representable, unless it reaches `2^277`. -/
theorem F32.roundMag_isRepr (num den : Nat) (hx : num / den < 2 ^ 128 * 2 ^ 149)
    (hr : F32.roundMag num den < 2 ^ 128 * 2 ^ 149) :
    F32.isRepr (F32.roundMag num den) = true := by
  have hq : num / (den * 2 ^ F32.shiftOf 256 (num / den) 0) < 2 ^ 24 := by
    rw [← Nat.div_div_eq_div_mul]
    exact F32.shiftOf_lt _ hx
  have hform : ∃ q1, q1 ≤ 2 ^ 24 ∧
      F32.roundMag num den = q1 * 2 ^ F32.shiftOf 256 (num / den) 0 := by
    simp only [F32.roundMag]
    refine ⟨_, ?_, rfl⟩
    split_ifs <;> omega
  obtain ⟨q1, hq1, e⟩ := hform
  rcases Nat.eq_or_lt_of_le hq1 with h | h
  · refine F32.isRepr_intro _ (2 ^ 23) (F32.shiftOf 256 (num / den) 0 + 1) hr (by norm_num) ?_
    rw [e, h, pow_succ]; ring
  · exact F32.isRepr_intro _ q1 _ hr h e

/-! ## Rounding: the float32 result -/

/-- An integer from its sign and its absolute value. -/
theorem F32.signed_natAbs (i : Int) :
    (if decide (i < 0) = true then -((i.natAbs : Nat) : Int) else ((i.natAbs : Nat) : Int)) = i := by
  by_cases hi : i < 0
  · simp only [hi, decide_True, if_true]
    rw [Int.natCast_natAbs, abs_of_neg hi]; ring
  · simp only [hi, decide_False]
    rw [Int.natCast_natAbs, abs_of_nonneg (not_lt.mp hi)]
    simp

/-- Rounding gives the infinity of the sign, or the finite value of the
rounded magnitude, which is representable. -/
theorem F32.round_cases (neg : Bool) (num den : Nat) :
    F32.round neg num den = F32.inf neg ∨
    (num / den < 2 ^ 128 * 2 ^ 149 ∧ F32.isRepr (F32.roundMag num den) = true ∧
      F32.round neg num den =
        F32.fin (if neg then -((F32.roundMag num den : Nat) : Int)
          else ((F32.roundMag num den : Nat) : Int))) := by
  unfold F32.round
  by_cases h1 : 2 ^ 128 * 2 ^ 149 ≤ num / den
  · rw [if_pos h1]; exact Or.inl rfl
  · rw [if_neg h1]
    by_cases h2 : 2 ^ 128 * 2 ^ 149 ≤ F32.roundMag num den
    · rw [if_pos h2]; exact Or.inl rfl
    · rw [if_neg h2]
      exact Or.inr ⟨not_le.mp h1, F32.roundMag_isRepr num den (not_le.mp h1) (not_le.mp h2), rfl⟩

/-- A representable magnitude is its own rounding. -/
theorem F32.round_exact (neg : Bool) (a den : Nat) (hden : 0 < den)
    (h : F32.isRepr a = true) :
    F32.round neg (a * den) den = F32.fin (if neg then -((a : Nat) : Int) else ((a : Nat) : Int)) := by
  have hb := ((F32.isRepr_iff a).mp h).1
  have hx : a * den / den = a := Nat.mul_div_cancel _ hden
  have hm := F32.roundMag_exact a den hden h
  unfold F32.round
  rw [hx, hm]
  rw [if_neg (not_le.mpr hb), if_neg (not_le.mpr hb)]

/-- An integer below `2^24` in absolute value converts exactly. -/
theorem F32.ofInt_exact (i : Int) (h : i.natAbs < 2 ^ 24) :
    F32.ofInt i = F32.fin (i * 2 ^ 149) := by
  have hr : F32.isRepr (i.natAbs * 2 ^ 149) = true := by
    refine F32.isRepr_intro _ i.natAbs 149 ?_ h rfl
    calc i.natAbs * 2 ^ 149 < 2 ^ 24 * 2 ^ 149 := Nat.mul_lt_mul_of_pos_right h (by positivity)
      _ ≤ 2 ^ 128 * 2 ^ 149 := by norm_num
  have := F32.round_exact (decide (i < 0)) (i.natAbs * 2 ^ 149) 1 Nat.one_pos hr
  rw [mul_one] at this
  unfold F32.ofInt
  rw [this]
  congr 1
  have hs := F32.signed_natAbs i
  by_cases hi : i < 0
  · simp only [hi, decide_True, if_true] at hs ⊢
    push_cast at hs ⊢
    linear_combination (2 ^ 149 : Int) * hs
  · simp only [hi, decide_False, Bool.false_eq_true, if_false] at hs ⊢
    push_cast at hs ⊢
    linear_combination (2 ^ 149 : Int) * hs

/-- A sum that is representable is computed exactly. -/
theorem F32.add_exact (a b : Int) (h : F32.isRepr (a + b).natAbs = true) :
    F32.add (F32.fin a) (F32.fin b) = F32.fin (a + b) := by
  have := F32.round_exact (decide (a + b < 0)) (a + b).natAbs 1 Nat.one_pos h
  rw [mul_one] at this
  show F32.round (decide (a + b < 0)) (a + b).natAbs 1 = _
  rw [this, F32.signed_natAbs]

/-! ## JSON numbers read back -/

theorem Json.decodeFloat_encodeFloat (x : F32) (h : x.isFloat = true) :
    ∃ l, Json.encodeFloat x = some l ∧ Json.decodeFloat l = some x := by
  cases x with
  | nan => simp [F32.isFloat] at h
  | inf s => simp [F32.isFloat] at h
  | fin n =>
    have hr : F32.isRepr n.natAbs = true := h
    refine ⟨_, rfl, ?_⟩
    have e : n.natAbs * Json.pow5 * 2 ^ 149 = n.natAbs * 10 ^ 149 := by
      rw [Json.pow5, mul_assoc, ← Nat.mul_pow]
    have hx := F32.round_exact (decide (n < 0)) n.natAbs (10 ^ 149) (by positivity) hr
    rw [F32.signed_natAbs] at hx
    have h149 : (-(-149 : Int)).toNat = 149 := by decide
    have hneg : ¬ (0 : Int) ≤ -149 := by decide
    simp only [Json.decodeFloat]
    rw [if_neg hneg, h149, e, hx]
    simp [F32.isFinite]

theorem Json.decodeInt_encodeInt (i : Int) (h1 : -(2 ^ 63) ≤ i) (h2 : i < 2 ^ 63) :
    Json.decodeInt (Json.encodeInt i) = some i := by
  simp only [Json.decodeInt, Json.encodeInt]
  rw [F32.signed_natAbs]
  rw [if_pos ⟨trivial, h1, h2⟩]

theorem F32.isFloat_elim (x : F32) (h : x.isFloat = true) :
    ∃ n, x = F32.fin n ∧ F32.isRepr n.natAbs = true := by
  cases x with
  | nan => simp [F32.isFloat] at h
  | inf s => simp [F32.isFloat] at h
  | fin n => exact ⟨n, rfl, h⟩

theorem Json.decodeFloat_num (n : Int) (h : F32.isRepr n.natAbs = true) :
    Json.decodeFloat (Json.Lit.num (decide (n < 0)) (n.natAbs * Json.pow5) (-149))
      = some (F32.fin n) := by
  obtain ⟨l, h1, h2⟩ := Json.decodeFloat_encodeFloat (F32.fin n) h
  simp only [Json.encodeFloat, Option.some.injEq] at h1
  rw [h1]; exact h2

theorem isInt64_elim (i : Int) (h : isInt64 i = true) : -(2 ^ 63) ≤ i ∧ i < 2 ^ 63 := by
  simpa [isInt64] using h

/-- What `Marshal` writes for a finite state, `Unmarshal` reads back. -/
theorem Main.Unmarshal_Marshal (s : Main.GameState) (h : Main.finiteState s = true) :
    ∃ doc, Main.Marshal s = some doc ∧ Main.Unmarshal doc = some s := by
  obtain ⟨⟨⟨bx, bY⟩, bs, bf⟩, ⟨⟨px, pY⟩, pg⟩, sc⟩ := s
  simp only [Main.finiteState, Bool.and_eq_true] at h
  obtain ⟨⟨⟨⟨⟨⟨⟨h1, h2⟩, h3⟩, h4⟩, h5⟩, h6⟩, h7⟩, h8⟩ := h
  obtain ⟨n1, rfl, r1⟩ := F32.isFloat_elim _ h1
  obtain ⟨n2, rfl, r2⟩ := F32.isFloat_elim _ h2
  obtain ⟨n3, rfl, r3⟩ := F32.isFloat_elim _ h3
  obtain ⟨n5, rfl, r5⟩ := F32.isFloat_elim _ h5
  obtain ⟨n6, rfl, r6⟩ := F32.isFloat_elim _ h6
  obtain ⟨n7, rfl, r7⟩ := F32.isFloat_elim _ h7
  have i4 := Json.decodeInt_encodeInt bf (isInt64_elim _ h4).1 (isInt64_elim _ h4).2
  have i8 := Json.decodeInt_encodeInt sc (isInt64_elim _ h8).1 (isInt64_elim _ h8).2
  refine ⟨_, rfl, ?_⟩
  simp only [Json.encodeInt] at i4 i8
  simp [Main.Unmarshal, Main.setLeaf, Json.decodeFloat_num, r1, r2, r3, r5, r6, r7,
    Json.encodeInt, i4, i8, Main.zeroState]

/-- What `Marshal` writes for a finite state, `Unmarshal` reads back. -/
theorem FlappyBird.Unmarshal_Marshal_plain (s : FlappyBird.GameState)
    (h : FlappyBird.finiteState s = true) :
    ∃ doc, FlappyBird.Marshal s = some doc ∧ FlappyBird.Unmarshal doc = some s := by
  obtain ⟨⟨⟨bx, bY⟩, bs⟩, ⟨⟨px, pY⟩, pg⟩, sc⟩ := s
  simp only [FlappyBird.finiteState, Bool.and_eq_true] at h
  obtain ⟨⟨⟨⟨⟨⟨h1, h2⟩, h3⟩, h5⟩, h6⟩, h7⟩, h8⟩ := h
  obtain ⟨n1, rfl, r1⟩ := F32.isFloat_elim _ h1
  obtain ⟨n2, rfl, r2⟩ := F32.isFloat_elim _ h2
  obtain ⟨n3, rfl, r3⟩ := F32.isFloat_elim _ h3
  obtain ⟨n5, rfl, r5⟩ := F32.isFloat_elim _ h5
  obtain ⟨n6, rfl, r6⟩ := F32.isFloat_elim _ h6
  obtain ⟨n7, rfl, r7⟩ := F32.isFloat_elim _ h7
  have i8 := Json.decodeInt_encodeInt sc (isInt64_elim _ h8).1 (isInt64_elim _ h8).2
  refine ⟨_, rfl, ?_⟩
  simp only [Json.encodeInt] at i8
  simp [FlappyBird.Unmarshal, FlappyBird.setLeaf, Json.decodeFloat_num, r1, r2, r3, r5, r6, r7,
    Json.encodeInt, i8, FlappyBird.zeroState]

/-- A state with NaN or an infinity in a float32 field is not written. -/
theorem Main.Marshal_none (s : Main.GameState)
    (h : (s.Bird.Position.X.isFinite && s.Bird.Position.Y.isFinite && s.Bird.Speed.isFinite &&
      s.Pipe.Position.X.isFinite && s.Pipe.Position.Y.isFinite && s.Pipe.GapY.isFinite) = false) :
    Main.Marshal s = none := by
  obtain ⟨⟨⟨bx, bY⟩, bs, bf⟩, ⟨⟨px, pY⟩, pg⟩, sc⟩ := s
  cases bx <;> cases bY <;> cases bs <;> cases px <;> cases pY <;> cases pg <;>
    first
      | rfl
      | (simp [F32.isFinite] at h)

/-! ## What each step of the `Main` loop leaves alone -/

@[simp] theorem Main.checkBounds_pipe (g : Main.Game) :
    (Main.checkBounds g).pipe = g.pipe := by
  simp only [Main.checkBounds]
  split_ifs <;> rfl

@[simp] theorem Main.checkBounds_score (g : Main.Game) :
    (Main.checkBounds g).score = g.score := by
  simp only [Main.checkBounds]
  split_ifs <;> rfl

@[simp] theorem Main.checkBounds_disk (g : Main.Game) :
    (Main.checkBounds g).disk = g.disk := by
  simp only [Main.checkBounds]
  split_ifs <;> rfl

@[simp] theorem Main.checkBounds_frameCounter (g : Main.Game) :
    (Main.checkBounds g).frameCounter = g.frameCounter := by
  simp only [Main.checkBounds]
  split_ifs <;> rfl

@[simp] theorem Main.checkBounds_Speed (g : Main.Game) :
    (Main.checkBounds g).bird.Speed = g.bird.Speed := by
  simp only [Main.checkBounds]
  split_ifs <;> rfl

@[simp] theorem Main.checkBounds_X (g : Main.Game) :
    (Main.checkBounds g).bird.Position.X = g.bird.Position.X := by
  simp only [Main.checkBounds]
  split_ifs <;> rfl

@[simp] theorem Main.checkBounds_Frame (g : Main.Game) :
    (Main.checkBounds g).bird.Frame = g.bird.Frame := by
  simp only [Main.checkBounds]
  split_ifs <;> rfl

@[simp] theorem Main.movePipe_bird (dt : F32) (draw : Fin (Main.screenHeight - Main.pipeGap)) (g : Main.Game) :
    (Main.movePipe dt draw g).bird = g.bird := by
  simp only [Main.movePipe]
  split_ifs <;> rfl

@[simp] theorem Main.movePipe_gameOver (dt : F32) (draw : Fin (Main.screenHeight - Main.pipeGap)) (g : Main.Game) :
    (Main.movePipe dt draw g).gameOver = g.gameOver := by
  simp only [Main.movePipe]
  split_ifs <;> rfl

@[simp] theorem Main.movePipe_disk (dt : F32) (draw : Fin (Main.screenHeight - Main.pipeGap)) (g : Main.Game) :
    (Main.movePipe dt draw g).disk = g.disk := by
  simp only [Main.movePipe]
  split_ifs <;> rfl

@[simp] theorem Main.movePipe_frameCounter (dt : F32) (draw : Fin (Main.screenHeight - Main.pipeGap)) (g : Main.Game) :
    (Main.movePipe dt draw g).frameCounter = g.frameCounter := by
  simp only [Main.movePipe]
  split_ifs <;> rfl

@[simp] theorem Main.checkCollision_bird (g : Main.Game) :
    (Main.checkCollision g).bird = g.bird := by
  simp only [Main.checkCollision]
  split_ifs <;> rfl

@[simp] theorem Main.checkCollision_pipe (g : Main.Game) :
    (Main.checkCollision g).pipe = g.pipe := by
  simp only [Main.checkCollision]
  split_ifs <;> rfl

@[simp] theorem Main.checkCollision_score (g : Main.Game) :
    (Main.checkCollision g).score = g.score := by
  simp only [Main.checkCollision]
  split_ifs <;> rfl

@[simp] theorem Main.checkCollision_disk (g : Main.Game) :
    (Main.checkCollision g).disk = g.disk := by
  simp only [Main.checkCollision]
  split_ifs <;> rfl

@[simp] theorem Main.checkCollision_frameCounter (g : Main.Game) :
    (Main.checkCollision g).frameCounter = g.frameCounter := by
  simp only [Main.checkCollision]
  split_ifs <;> rfl

@[simp] theorem Main.animate_pipe (dt : F32) (g : Main.Game) :
    (Main.animate dt g).pipe = g.pipe := by
  simp only [Main.animate]
  split_ifs <;> rfl

@[simp] theorem Main.animate_score (dt : F32) (g : Main.Game) :
    (Main.animate dt g).score = g.score := by
  simp only [Main.animate]
  split_ifs <;> rfl

@[simp] theorem Main.animate_gameOver (dt : F32) (g : Main.Game) :
    (Main.animate dt g).gameOver = g.gameOver := by
  simp only [Main.animate]
  split_ifs <;> rfl

@[simp] theorem Main.animate_disk (dt : F32) (g : Main.Game) :
    (Main.animate dt g).disk = g.disk := by
  simp only [Main.animate]
  split_ifs <;> rfl

@[simp] theorem Main.animate_Position (dt : F32) (g : Main.Game) :
    (Main.animate dt g).bird.Position = g.bird.Position := by
  simp only [Main.animate]
  split_ifs <;> rfl

@[simp] theorem Main.animate_Speed (dt : F32) (g : Main.Game) :
    (Main.animate dt g).bird.Speed = g.bird.Speed := by
  simp only [Main.animate]
  split_ifs <;> rfl

/-! ## What each step of the `FlappyBird` loop leaves alone -/

@[simp] theorem FlappyBird.checkBounds_pipe_plain (g : FlappyBird.Game) :
    (FlappyBird.checkBounds g).pipe = g.pipe := by
  simp only [FlappyBird.checkBounds]
  split_ifs <;> rfl

@[simp] theorem FlappyBird.checkBounds_score_plain (g : FlappyBird.Game) :
    (FlappyBird.checkBounds g).score = g.score := by
  simp only [FlappyBird.checkBounds]
  split_ifs <;> rfl

@[simp] theorem FlappyBird.checkBounds_disk_plain (g : FlappyBird.Game) :
    (FlappyBird.checkBounds g).disk = g.disk := by
  simp only [FlappyBird.checkBounds]
  split_ifs <;> rfl

@[simp] theorem FlappyBird.checkBounds_Speed_plain (g : FlappyBird.Game) :
    (FlappyBird.checkBounds g).bird.Speed = g.bird.Speed := by
  simp only [FlappyBird.checkBounds]
  split_ifs <;> rfl

@[simp] theorem FlappyBird.checkBounds_X_plain (g : FlappyBird.Game) :
    (FlappyBird.checkBounds g).bird.Position.X = g.bird.Position.X := by
  simp only [FlappyBird.checkBounds]
  split_ifs <;> rfl

@[simp] theorem FlappyBird.movePipe_bird_plain (dt : F32) (draw : Fin (FlappyBird.screenHeight - FlappyBird.pipeGap)) (g : FlappyBird.Game) :
    (FlappyBird.movePipe dt draw g).bird = g.bird := by
  simp only [FlappyBird.movePipe]
  split_ifs <;> rfl

@[simp] theorem FlappyBird.movePipe_gameOver_plain (dt : F32) (draw : Fin (FlappyBird.screenHeight - FlappyBird.pipeGap)) (g : FlappyBird.Game) :
    (FlappyBird.movePipe dt draw g).gameOver = g.gameOver := by
  simp only [FlappyBird.movePipe]
  split_ifs <;> rfl

@[simp] theorem FlappyBird.movePipe_disk_plain (dt : F32) (draw : Fin (FlappyBird.screenHeight - FlappyBird.pipeGap)) (g : FlappyBird.Game) :
    (FlappyBird.movePipe dt draw g).disk = g.disk := by
  simp only [FlappyBird.movePipe]
  split_ifs <;> rfl

@[simp] theorem FlappyBird.checkCollision_bird_plain (g : FlappyBird.Game) :
    (FlappyBird.checkCollision g).bird = g.bird := by
  simp only [FlappyBird.checkCollision]
  split_ifs <;> rfl

@[simp] theorem FlappyBird.checkCollision_pipe_plain (g : FlappyBird.Game) :
    (FlappyBird.checkCollision g).pipe = g.pipe := by
  simp only [FlappyBird.checkCollision]
  split_ifs <;> rfl

@[simp] theorem FlappyBird.checkCollision_score_plain (g : FlappyBird.Game) :
    (FlappyBird.checkCollision g).score = g.score := by
  simp only [FlappyBird.checkCollision]
  split_ifs <;> rfl

@[simp] theorem FlappyBird.checkCollision_disk_plain (g : FlappyBird.Game) :
    (FlappyBird.checkCollision g).disk = g.disk := by
  simp only [FlappyBird.checkCollision]
  split_ifs <;> rfl

/-! ## The steps of a Playing tick, field by field -/

/-- The bird's height after the bounds check, from the height before it. -/
theorem Main.checkBounds_Y (g : Main.Game) :
    (Main.checkBounds g).bird.Position.Y =
      if F32.lt g.bird.Position.Y (F32.ofInt 0) = true then F32.ofInt 0
      else g.bird.Position.Y := by
  simp only [Main.checkBounds]
  split_ifs <;> rfl

/-- The bird's height after the bounds check, from the height before it. -/
theorem FlappyBird.checkBounds_Y_plain (g : FlappyBird.Game) :
    (FlappyBird.checkBounds g).bird.Position.Y =
      if F32.lt g.bird.Position.Y (F32.ofInt 0) = true then F32.ofInt 0
      else g.bird.Position.Y := by
  simp only [FlappyBird.checkBounds]
  split_ifs <;> rfl

/-- A height above `450` is not below `0`. -/
theorem F32.not_lt_zero_of_gt (y : F32) (h : F32.gt y (F32.ofInt 450) = true) :
    F32.lt y (F32.ofInt 0) = false := by
  have e1 : F32.ofInt 450 = F32.fin (450 * 2 ^ 149) := by decide
  have e0 : F32.ofInt 0 = F32.fin 0 := by decide
  rw [e1] at h
  rw [e0]
  cases y with
  | nan => rfl
  | inf s =>
    cases s
    · rfl
    · simp [F32.gt, F32.lt] at h
  | fin n =>
    simp only [F32.gt, F32.lt, decide_eq_true_eq, decide_eq_false_iff_not, not_lt] at h ⊢
    have : (0 : Int) ≤ 450 * 2 ^ 149 := by positivity
    omega

/-- The bounds check raises `gameOver` exactly when the height exceeds `450`. -/
theorem Main.checkBounds_gameOver (g : Main.Game) :
    (Main.checkBounds g).gameOver = true ↔
      (g.gameOver = true ∨ F32.gt g.bird.Position.Y (F32.ofInt 450) = true) := by
  by_cases h : F32.gt g.bird.Position.Y (F32.ofInt 450) = true
  · have h0 := F32.not_lt_zero_of_gt _ h
    simp [Main.checkBounds, Main.screenHeight, h, h0]
  · simp only [Main.checkBounds, Main.screenHeight, Nat.cast_ofNat]
    split_ifs <;> simp [h]

/-- The bounds check raises `gameOver` exactly when the height exceeds `450`. -/
theorem FlappyBird.checkBounds_gameOver_plain (g : FlappyBird.Game) :
    (FlappyBird.checkBounds g).gameOver = true ↔
      (g.gameOver = true ∨ F32.gt g.bird.Position.Y (F32.ofInt 450) = true) := by
  by_cases h : F32.gt g.bird.Position.Y (F32.ofInt 450) = true
  · have h0 := F32.not_lt_zero_of_gt _ h
    simp [FlappyBird.checkBounds, FlappyBird.screenHeight, h, h0]
  · simp only [FlappyBird.checkBounds, FlappyBird.screenHeight, Nat.cast_ofNat]
    split_ifs <;> simp [h]

/-- The collision check never lowers `gameOver`. -/
theorem Main.checkCollision_gameOver (g : Main.Game) :
    (Main.checkCollision g).gameOver = (g.gameOver || Main.collides g.bird g.pipe) := by
  simp only [Main.checkCollision]
  split_ifs with h <;> simp [h]

/-- The collision check never lowers `gameOver`. -/
theorem FlappyBird.checkCollision_gameOver_plain (g : FlappyBird.Game) :
    (FlappyBird.checkCollision g).gameOver =
      (g.gameOver || FlappyBird.collides g.bird g.pipe) := by
  simp only [FlappyBird.checkCollision]
  split_ifs with h <;> simp [h]

/-- The pipe after the pipe step. -/
theorem Main.movePipe_pipe (dt : F32) (draw : Fin (Main.screenHeight - Main.pipeGap))
    (g : Main.Game) :
    (Main.movePipe dt draw g).pipe =
      if F32.lt (F32.sub g.pipe.Position.X (F32.mul (F32.ofInt 200) dt)) (F32.ofInt (-50)) = true
      then Main.NewPipe draw
      else { g.pipe with Position := { g.pipe.Position with
              X := F32.sub g.pipe.Position.X (F32.mul (F32.ofInt 200) dt) } } := by
  simp only [Main.movePipe, Main.pipeSpeed, Main.pipeWidth, Nat.cast_ofNat]
  split_ifs <;> rfl

/-- The score after the pipe step. -/
theorem Main.movePipe_score (dt : F32) (draw : Fin (Main.screenHeight - Main.pipeGap))
    (g : Main.Game) :
    (Main.movePipe dt draw g).score =
      if F32.lt (F32.sub g.pipe.Position.X (F32.mul (F32.ofInt 200) dt)) (F32.ofInt (-50)) = true
      then wrap64 (g.score + 1) else g.score := by
  simp only [Main.movePipe, Main.pipeSpeed, Main.pipeWidth, Nat.cast_ofNat]
  split_ifs <;> rfl

/-- The pipe after the pipe step. -/
theorem FlappyBird.movePipe_pipe_plain (dt : F32)
    (draw : Fin (FlappyBird.screenHeight - FlappyBird.pipeGap)) (g : FlappyBird.Game) :
    (FlappyBird.movePipe dt draw g).pipe =
      if F32.lt (F32.sub g.pipe.Position.X (F32.mul (F32.ofInt 200) dt)) (F32.ofInt (-50)) = true
      then FlappyBird.NewPipe draw
      else { g.pipe with Position := { g.pipe.Position with
              X := F32.sub g.pipe.Position.X (F32.mul (F32.ofInt 200) dt) } } := by
  simp only [FlappyBird.movePipe, FlappyBird.pipeSpeed, FlappyBird.pipeWidth, Nat.cast_ofNat]
  split_ifs <;> rfl

/-- The score after the pipe step. -/
theorem FlappyBird.movePipe_score_plain (dt : F32)
    (draw : Fin (FlappyBird.screenHeight - FlappyBird.pipeGap)) (g : FlappyBird.Game) :
    (FlappyBird.movePipe dt draw g).score =
      if F32.lt (F32.sub g.pipe.Position.X (F32.mul (F32.ofInt 200) dt)) (F32.ofInt (-50)) = true
      then wrap64 (g.score + 1) else g.score := by
  simp only [FlappyBird.movePipe, FlappyBird.pipeSpeed, FlappyBird.pipeWidth, Nat.cast_ofNat]
  split_ifs <;> rfl

/-- The frame index after the animation step. -/
theorem Main.animate_Frame (dt : F32) (g : Main.Game) :
    (Main.animate dt g).bird.Frame =
      if F32.ge (F32.add g.frameCounter dt) Main.frameSpeed = true then
        (if wrap64 (g.bird.Frame + 1) ≥ 8 then 0 else wrap64 (g.bird.Frame + 1))
      else g.bird.Frame := by
  simp only [Main.animate, Main.framesLen, Nat.cast_ofNat]
  split_ifs <;> rfl

/-- The counter after the animation step. -/
theorem Main.animate_frameCounter (dt : F32) (g : Main.Game) :
    (Main.animate dt g).frameCounter =
      if F32.ge (F32.add g.frameCounter dt) Main.frameSpeed = true then F32.ofInt 0
      else F32.add g.frameCounter dt := by
  simp only [Main.animate]
  split_ifs <;> rfl

/-- In range, `++` on an `int` adds one. -/
theorem wrap64_of_lt (i : Int) (h1 : -(2 ^ 63) ≤ i) (h2 : i < 2 ^ 63) : wrap64 i = i := by
  unfold wrap64
  omega

/-- With the frame index in `0 .. 7` on entry, the lookup `frames[bird.Frame]`
succeeds and the tick yields the updated state. -/
theorem Main.playingTick_some (keyW : Bool) (dt : F32)
    (draw : Fin (Main.screenHeight - Main.pipeGap)) (g : Main.Game)
    (h0 : 0 ≤ g.bird.Frame) (h8 : g.bird.Frame < 8) :
    Main.playingTick keyW dt draw g = some (Main.playingUpdate keyW dt draw g) ∧
    0 ≤ (Main.playingUpdate keyW dt draw g).bird.Frame ∧
    (Main.playingUpdate keyW dt draw g).bird.Frame < 8 := by
  have hf : (Main.playingUpdate keyW dt draw g).bird.Frame =
      (if F32.ge (F32.add g.frameCounter dt) Main.frameSpeed = true then
        (if wrap64 (g.bird.Frame + 1) ≥ 8 then 0 else wrap64 (g.bird.Frame + 1))
      else g.bird.Frame) := by
    rw [Main.playingUpdate, Main.animate_Frame]
    cases keyW <;> simp [Main.integrate, Main.jump]
  have hw : wrap64 (g.bird.Frame + 1) = g.bird.Frame + 1 := wrap64_of_lt _ (by omega) (by omega)
  have hr : 0 ≤ (Main.playingUpdate keyW dt draw g).bird.Frame ∧
      (Main.playingUpdate keyW dt draw g).bird.Frame < 8 := by
    rw [hf, hw]
    split_ifs <;> omega
  refine ⟨?_, hr⟩
  simp only [Main.playingTick, Main.framesLen, Nat.cast_ofNat]
  rw [if_pos hr]

/-! ## The pipe at `x = -51` -/

/-- The float32 product of a positive constant and a time step that is not
negative is an infinity or a magnitude. -/
theorem F32.mul_pos_cases (c : Int) (hc : 0 < c) (d : Int) (hd : 0 ≤ d) :
    F32.mul (F32.fin c) (F32.fin d) = F32.inf false ∨
    ∃ m : Nat, F32.mul (F32.fin c) (F32.fin d) = F32.fin (m : Int) ∧ F32.isRepr m = true := by
  have hs : (decide (c < 0) != decide (d < 0)) = false := by
    have h1 : decide (c < 0) = false := decide_eq_false (not_lt.mpr (le_of_lt hc))
    have h2 : decide (d < 0) = false := decide_eq_false (not_lt.mpr hd)
    rw [h1, h2]; rfl
  show F32.round (decide (c < 0) != decide (d < 0)) (c.natAbs * d.natAbs) (2 ^ 149) = _ ∨
    ∃ m : Nat, F32.round (decide (c < 0) != decide (d < 0)) (c.natAbs * d.natAbs) (2 ^ 149) = _ ∧ _
  rw [hs]
  rcases F32.round_cases false (c.natAbs * d.natAbs) (2 ^ 149) with h | ⟨_, hr, h⟩
  · exact Or.inl h
  · refine Or.inr ⟨_, ?_, hr⟩
    rw [h]; rfl

/-- With the pipe at `x = -51`, any positive time step takes it below `-50`. -/
theorem F32.below_after_step (dt : F32) (h : F32.lt (F32.ofInt 0) dt = true) :
    F32.lt (F32.sub (F32.ofInt (-51)) (F32.mul (F32.ofInt 200) dt)) (F32.ofInt (-50)) = true := by
  have e0 : F32.ofInt 0 = F32.fin 0 := by decide
  have e51 : F32.ofInt (-51) = F32.fin (-(51 * 2 ^ 149)) := by decide
  have e50 : F32.ofInt (-50) = F32.fin (-(50 * 2 ^ 149)) := by decide
  have e200 : F32.ofInt 200 = F32.fin (200 * 2 ^ 149) := by decide
  have r51 : F32.isRepr (51 * 2 ^ 149) = true := by decide
  rw [e0] at h
  rw [e51, e50, e200]
  cases dt with
  | nan => simp [F32.lt] at h
  | inf s =>
    cases s
    · decide
    · simp [F32.lt] at h
  | fin d =>
    have hd : 0 < d := by simpa [F32.lt] using h
    rcases F32.mul_pos_cases (200 * 2 ^ 149) (by positivity) d (le_of_lt hd) with hm | ⟨m, hm, _⟩
    · rw [hm]; rfl
    · rw [hm]
      have hneg : -(51 * 2 ^ 149 : Int) + -(m : Int) < 0 := by
        have : (0 : Int) ≤ (m : Int) := Int.natCast_nonneg m
        have : (0 : Int) < 51 * 2 ^ 149 := by positivity
        omega
      have hab : (-(51 * 2 ^ 149 : Int) + -(m : Int)).natAbs = 51 * 2 ^ 149 + m := by
        have : (0 : Int) < 51 * 2 ^ 149 := by positivity
        omega
      show F32.lt (F32.round (decide (-(51 * 2 ^ 149 : Int) + -(m : Int) < 0))
        (-(51 * 2 ^ 149 : Int) + -(m : Int)).natAbs 1) _ = true
      rw [decide_eq_true hneg, hab]
      rcases F32.round_cases true (51 * 2 ^ 149 + m) 1 with hi | ⟨hb, _, hf⟩
      · rw [hi]; rfl
      · rw [hf]
        rw [Nat.div_one] at hb
        have hge := F32.roundMag_ge (51 * 2 ^ 149 + m) (51 * 2 ^ 149) (Nat.le_add_right _ _) hb r51
        simp only [if_true, F32.lt, decide_eq_true_eq]
        have h2 : ((51 * 2 ^ 149 : Nat) : Int) ≤ ((F32.roundMag (51 * 2 ^ 149 + m) 1 : Nat) : Int) :=
          Int.ofNat_le.mpr hge
        push_cast at h2
        have : (0 : Int) < 2 ^ 149 := by positivity
        omega

/-! ## Spawning a pipe -/

/-- The gap centre in units: the float32 sum of the draw and `75` is exact. -/
theorem F32.add_draw (d : Nat) (h : d < 300) :
    F32.add (F32.ofInt (d : Int)) (F32.fin (75 * 2 ^ 149)) = F32.fin (((d + 75 : Nat) : Int) * 2 ^ 149)
    ∧ F32.ofInt ((d + 75 : Nat) : Int) = F32.fin (((d + 75 : Nat) : Int) * 2 ^ 149) := by
  have h1 : F32.ofInt (d : Int) = F32.fin ((d : Int) * 2 ^ 149) :=
    F32.ofInt_exact _ (by simp only [Int.natAbs_ofNat]; omega)
  have h2 : F32.ofInt ((d + 75 : Nat) : Int) = F32.fin (((d + 75 : Nat) : Int) * 2 ^ 149) :=
    F32.ofInt_exact _ (by simp only [Int.natAbs_ofNat]; omega)
  refine ⟨?_, h2⟩
  rw [h1]
  have e : (d : Int) * 2 ^ 149 + 75 * 2 ^ 149 = (((d + 75) * 2 ^ 149 : Nat) : Int) := by
    push_cast; ring
  have hr : F32.isRepr ((d : Int) * 2 ^ 149 + 75 * 2 ^ 149).natAbs = true := by
    rw [e, Int.natAbs_ofNat]
    refine F32.isRepr_intro _ (d + 75) 149 ?_ (by omega) rfl
    calc (d + 75) * 2 ^ 149 < 2 ^ 24 * 2 ^ 149 :=
          Nat.mul_lt_mul_of_pos_right (by omega) (by positivity)
      _ ≤ 2 ^ 128 * 2 ^ 149 := by norm_num
  rw [F32.add_exact _ _ hr]
  have e2 : (d : Int) * 2 ^ 149 + 75 * 2 ^ 149 = ((d + 75 : Nat) : Int) * 2 ^ 149 := by
    push_cast; ring
  rw [e2]

/-- The spawn position and the range of the gap centre. -/
theorem Main.NewPipe_range (draw : Fin (Main.screenHeight - Main.pipeGap)) :
    (Main.NewPipe draw).Position.X = F32.ofInt 800 ∧
      (Main.NewPipe draw).GapY = F32.ofInt (((draw : Nat) + 75 : Nat) : Int) ∧
      F32.toRat (Main.NewPipe draw).GapY = ((draw : Nat) : ℚ) + 75 ∧
      F32.le (F32.ofInt 75) (Main.NewPipe draw).GapY = true ∧
      F32.le (Main.NewPipe draw).GapY (F32.ofInt 374) = true := by
  have h : (draw : Nat) < 300 := draw.isLt
  have hq : F32.ofQuot false Main.pipeGap 2 = F32.fin (75 * 2 ^ 149) := by decide
  obtain ⟨ha, hb⟩ := F32.add_draw (draw : Nat) h
  have e : (Main.NewPipe draw).GapY = F32.fin ((((draw : Nat) + 75 : Nat) : Int) * 2 ^ 149) := by
    simp only [Main.NewPipe, hq]
    exact ha
  have e75 : F32.ofInt 75 = F32.fin (75 * 2 ^ 149) := by decide
  have e374 : F32.ofInt 374 = F32.fin (374 * 2 ^ 149) := by decide
  have hpos : (0 : Int) < 2 ^ 149 := by positivity
  refine ⟨rfl, by rw [e, hb], ?_, ?_, ?_⟩
  · rw [e]
    have h2 : ((2 : ℚ) ^ 149) ≠ 0 := by positivity
    simp only [F32.toRat, Int.cast_mul, Int.cast_pow, Int.cast_ofNat, Int.cast_natCast,
      Nat.cast_add, Nat.cast_ofNat]
    rw [mul_div_assoc, div_self h2, mul_one]
    push_cast
    rfl
  · rewrite [e, e75]
    simp only [F32.le, decide_eq_true_eq]
    have hle : (75 : Int) ≤ (((draw : Nat) + 75 : Nat) : Int) := by omega
    exact mul_le_mul_of_nonneg_right hle (le_of_lt hpos)
  · rewrite [e, e374]
    simp only [F32.le, decide_eq_true_eq]
    have hle : (((draw : Nat) + 75 : Nat) : Int) ≤ 374 := by omega
    exact mul_le_mul_of_nonneg_right hle (le_of_lt hpos)

/-- The spawn position and the range of the gap centre. -/
theorem FlappyBird.NewPipe_range_plain
    (draw : Fin (FlappyBird.screenHeight - FlappyBird.pipeGap)) :
    (FlappyBird.NewPipe draw).Position.X = F32.ofInt 800 ∧
      (FlappyBird.NewPipe draw).GapY = F32.ofInt (((draw : Nat) + 75 : Nat) : Int) ∧
      F32.toRat (FlappyBird.NewPipe draw).GapY = ((draw : Nat) : ℚ) + 75 ∧
      F32.le (F32.ofInt 75) (FlappyBird.NewPipe draw).GapY = true ∧
      F32.le (FlappyBird.NewPipe draw).GapY (F32.ofInt 374) = true := by
  have h : (draw : Nat) < 300 := draw.isLt
  have hq : F32.ofQuot false FlappyBird.pipeGap 2 = F32.fin (75 * 2 ^ 149) := by decide
  obtain ⟨ha, hb⟩ := F32.add_draw (draw : Nat) h
  have e : (FlappyBird.NewPipe draw).GapY
      = F32.fin ((((draw : Nat) + 75 : Nat) : Int) * 2 ^ 149) := by
    simp only [FlappyBird.NewPipe, hq]
    exact ha
  have e75 : F32.ofInt 75 = F32.fin (75 * 2 ^ 149) := by decide
  have e374 : F32.ofInt 374 = F32.fin (374 * 2 ^ 149) := by decide
  have hpos : (0 : Int) < 2 ^ 149 := by positivity
  refine ⟨rfl, by rw [e, hb], ?_, ?_, ?_⟩
  · rw [e]
    have h2 : ((2 : ℚ) ^ 149) ≠ 0 := by positivity
    simp only [F32.toRat, Int.cast_mul, Int.cast_pow, Int.cast_ofNat, Int.cast_natCast,
      Nat.cast_add, Nat.cast_ofNat]
    rw [mul_div_assoc, div_self h2, mul_one]
    push_cast
    rfl
  · rewrite [e, e75]
    simp only [F32.le, decide_eq_true_eq]
    have hle : (75 : Int) ≤ (((draw : Nat) + 75 : Nat) : Int) := by omega
    exact mul_le_mul_of_nonneg_right hle (le_of_lt hpos)
  · rewrite [e, e374]
    simp only [F32.le, decide_eq_true_eq]
    have hle : (((draw : Nat) + 75 : Nat) : Int) ≤ 374 := by omega
    exact mul_le_mul_of_nonneg_right hle (le_of_lt hpos)

/-! ## The height of the bird over a whole run -/

/-- Every frame time and coordinate written with `F32.ofBits` in the examples
below is a finite float32 value (a significand below `2^24` at an exponent in
range). -/
theorem example_values_isFloat :
    dt60.isFloat = true ∧ dt10.isFloat = true ∧
    (F32.ofBits (50 * 2 ^ 18 + 1) (-18)).isFloat = true ∧
    (F32.ofBits 1 (-16)).isFloat = true ∧ (F32.ofBits 1 (-30)).isFloat = true ∧
    (F32.ofBits 1 127).isFloat = true ∧ (F32.ofQuot false 1 12).isFloat = true := by
  decide

/-! ## Collision check -/

/-- C1 (as stated, refuted): with the pipe at `x = 90`, gap centre `200`, and the
bird at `(100, 125)`, the bird overlaps the pipe horizontally and `125` is not
strictly between `125` and `275`, yet the collision check leaves `gameOver`
false. -/
theorem collision_strict_band_counterexample :
    ¬ ((Main.checkCollision
          (Main.gameOf (Main.birdAt (F32.ofInt 125) (F32.ofInt 0) 0)
            (Main.pipeAt (F32.ofInt 90) (F32.ofInt 200)) 0 false)).gameOver = true ↔
        (((100 : ℚ) + 20 > 90 ∧ (100 : ℚ) < 90 + 50) ∧
          ¬ ((200 : ℚ) - 75 < 125 ∧ (125 : ℚ) < 200 + 75))) := by
  have h : (Main.checkCollision
      (Main.gameOf (Main.birdAt (F32.ofInt 125) (F32.ofInt 0) 0)
        (Main.pipeAt (F32.ofInt 90) (F32.ofInt 200)) 0 false)).gameOver = false := by decide
  rw [h]
  norm_num

/-- C1 (amended): in both games the collision check leaves `gameOver` true
exactly when it already was true or the bird overlaps the pipe horizontally
(`x + 20 > px` and `x < px + 50`) and its height is outside the closed band,
`y < g - 75` or `y > g + 75`; the sums and the difference are float32 results,
rounded, and the comparisons are float32 comparisons. The two edges `g - 75`
and `g + 75` are safe. For `px = 90`, `g = 200`, `x = 100` it fires at `y = 50`
and not at `y = 200`, `y = 125` or `y = 275`. With `px = 50 + 2^(-18)` the sum
`px + 50` rounds to `100` and a bird at `x = 100`, `y = 50` passes. -/
theorem collision_check_closed_band :
    (∀ g : Main.Game, (Main.checkCollision g).gameOver = true ↔
        (g.gameOver = true ∨
          ((F32.gt (F32.add g.bird.Position.X (F32.ofInt 20)) g.pipe.Position.X = true ∧
              F32.lt g.bird.Position.X (F32.add g.pipe.Position.X (F32.ofInt 50)) = true) ∧
            (F32.lt g.bird.Position.Y (F32.sub g.pipe.GapY (F32.ofInt 75)) = true ∨
              F32.gt g.bird.Position.Y (F32.add g.pipe.GapY (F32.ofInt 75)) = true)))) ∧
    (∀ g : Main.Game, (Main.checkCollision g).bird = g.bird ∧
        (Main.checkCollision g).pipe = g.pipe ∧ (Main.checkCollision g).score = g.score) ∧
    (Main.checkCollision
        (Main.gameOf (Main.birdAt (F32.ofInt 50) (F32.ofInt 0) 0)
          (Main.pipeAt (F32.ofInt 90) (F32.ofInt 200)) 0 false)).gameOver = true ∧
    (Main.checkCollision
        (Main.gameOf (Main.birdAt (F32.ofInt 200) (F32.ofInt 0) 0)
          (Main.pipeAt (F32.ofInt 90) (F32.ofInt 200)) 0 false)).gameOver = false ∧
    (Main.checkCollision
        (Main.gameOf (Main.birdAt (F32.ofInt 125) (F32.ofInt 0) 0)
          (Main.pipeAt (F32.ofInt 90) (F32.ofInt 200)) 0 false)).gameOver = false ∧
    (Main.checkCollision
        (Main.gameOf (Main.birdAt (F32.ofInt 275) (F32.ofInt 0) 0)
          (Main.pipeAt (F32.ofInt 90) (F32.ofInt 200)) 0 false)).gameOver = false ∧
    (Main.checkCollision
        (Main.gameOf (Main.birdAt (F32.ofInt 50) (F32.ofInt 0) 0)
          (Main.pipeAt (F32.ofBits (50 * 2 ^ 18 + 1) (-18)) (F32.ofInt 200)) 0 false)).gameOver
      = false ∧
    (∀ g : FlappyBird.Game, (FlappyBird.checkCollision g).gameOver = true ↔
        (g.gameOver = true ∨
          ((F32.gt (F32.add g.bird.Position.X (F32.ofInt 20)) g.pipe.Position.X = true ∧
              F32.lt g.bird.Position.X (F32.add g.pipe.Position.X (F32.ofInt 50)) = true) ∧
            (F32.lt g.bird.Position.Y (F32.sub g.pipe.GapY (F32.ofInt 75)) = true ∨
              F32.gt g.bird.Position.Y (F32.add g.pipe.GapY (F32.ofInt 75)) = true)))) ∧
    (FlappyBird.checkCollision
        (FlappyBird.gameOf (FlappyBird.birdAt (F32.ofInt 50) (F32.ofInt 0))
          (FlappyBird.pipeAt (F32.ofInt 90) (F32.ofInt 200)) 0 false)).gameOver = true ∧
    (FlappyBird.checkCollision
        (FlappyBird.gameOf (FlappyBird.birdAt (F32.ofInt 200) (F32.ofInt 0))
          (FlappyBird.pipeAt (F32.ofInt 90) (F32.ofInt 200)) 0 false)).gameOver = false ∧
    (FlappyBird.checkCollision
        (FlappyBird.gameOf (FlappyBird.birdAt (F32.ofInt 50) (F32.ofInt 0))
          (FlappyBird.pipeAt (F32.ofBits (50 * 2 ^ 18 + 1) (-18)) (F32.ofInt 200)) 0
          false)).gameOver = false := by
  refine ⟨?_, ?_, by decide, by decide, by decide, by decide, by decide, ?_, by decide,
    by decide, by decide⟩
  · intro g
    rw [Main.checkCollision_gameOver]
    simp [Main.collides, Main.pipeWidth, Main.pipeGap]
  · intro g
    exact ⟨Main.checkCollision_bird g, Main.checkCollision_pipe g, Main.checkCollision_score g⟩
  · intro g
    rw [FlappyBird.checkCollision_gameOver_plain]
    simp [FlappyBird.collides, FlappyBird.pipeWidth, FlappyBird.pipeGap]

/-! ## Impulse and integration -/

/-- C2 (as stated, refuted): at the frame time of 60 frames per second,
`dt = float32(1/60)`, a tick with the impulse leaves the speed
`-9611947 * 2^(-15)`, which is not `-300 + 400*dt`. -/
theorem impulse_exact_speed_counterexample :
    ¬ (F32.toRat (Main.playingUpdate true dt60 ⟨0, by decide⟩
          (Main.gameOf (Main.birdAt (F32.ofInt 400) (F32.ofInt 0) 0)
            (Main.pipeAt (F32.ofInt 800) (F32.ofInt 200)) 0 false)).bird.Speed
        = -300 + 400 * F32.toRat dt60) := by
  have h : (Main.playingUpdate true dt60 ⟨0, by decide⟩
      (Main.gameOf (Main.birdAt (F32.ofInt 400) (F32.ofInt 0) 0)
        (Main.pipeAt (F32.ofInt 800) (F32.ofInt 200)) 0 false)).bird.Speed
      = F32.fin (-9611947 * 2 ^ 134) := by decide
  have hd : dt60 = F32.fin (8947849 * 2 ^ 120) := by decide
  rw [h, hd]
  norm_num [F32.toRat]

/-- C2 (amended): in both games, a Playing tick with the impulse key pressed
integrates from `jumpSpeed` in float32 arithmetic: the speed becomes the
float32 sum of `-300` and the float32 product `400*dt`, whatever it was; the
height before the bounds check is the float32 sum of `y` and the float32
product of that speed and `dt`; the tick leaves exactly that speed, and the
height it leaves is the pre-check height with values below `0` replaced by `0`.
In the animated game the tick yields a state when the frame index is in
`0 .. 7`. From `y = 400`, `v = 0`, `dt = float32(0.1)` the speed is `-260` and
the height `374`. -/
theorem impulse_then_integrate :
    (∀ (g : Main.Game) (dt : F32) (draw : Fin (Main.screenHeight - Main.pipeGap)),
      (Main.integrate dt (Main.jump true g.bird)).Speed
        = F32.add (F32.ofInt (-300)) (F32.mul (F32.ofInt 400) dt) ∧
      (Main.integrate dt (Main.jump true g.bird)).Position.Y =
        F32.add g.bird.Position.Y
          (F32.mul (F32.add (F32.ofInt (-300)) (F32.mul (F32.ofInt 400) dt)) dt) ∧
      (Main.playingUpdate true dt draw g).bird.Speed
        = F32.add (F32.ofInt (-300)) (F32.mul (F32.ofInt 400) dt) ∧
      (Main.playingUpdate true dt draw g).bird.Position.Y =
        (if F32.lt (Main.integrate dt (Main.jump true g.bird)).Position.Y (F32.ofInt 0) = true
          then F32.ofInt 0
          else (Main.integrate dt (Main.jump true g.bird)).Position.Y) ∧
      (0 ≤ g.bird.Frame → g.bird.Frame < 8 →
        Main.playingTick true dt draw g = some (Main.playingUpdate true dt draw g))) ∧
    (∀ (p : Main.Pipe) (score : Int) (draw : Fin (Main.screenHeight - Main.pipeGap)),
      (Main.playingUpdate true dt10 draw
          (Main.gameOf (Main.birdAt (F32.ofInt 400) (F32.ofInt 0) 0) p score false)).bird.Speed
        = F32.ofInt (-260) ∧
      (Main.playingUpdate true dt10 draw
          (Main.gameOf (Main.birdAt (F32.ofInt 400) (F32.ofInt 0) 0) p score
            false)).bird.Position.Y = F32.ofInt 374) ∧
    (∀ (g : FlappyBird.Game) (dt : F32)
        (draw : Fin (FlappyBird.screenHeight - FlappyBird.pipeGap)),
      (FlappyBird.integrate dt (FlappyBird.jump true g.bird)).Speed
        = F32.add (F32.ofInt (-300)) (F32.mul (F32.ofInt 400) dt) ∧
      (FlappyBird.integrate dt (FlappyBird.jump true g.bird)).Position.Y =
        F32.add g.bird.Position.Y
          (F32.mul (F32.add (F32.ofInt (-300)) (F32.mul (F32.ofInt 400) dt)) dt) ∧
      (FlappyBird.playingTick true dt draw g).bird.Speed
        = F32.add (F32.ofInt (-300)) (F32.mul (F32.ofInt 400) dt) ∧
      (FlappyBird.playingTick true dt draw g).bird.Position.Y =
        (if F32.lt (FlappyBird.integrate dt (FlappyBird.jump true g.bird)).Position.Y
            (F32.ofInt 0) = true
          then F32.ofInt 0
          else (FlappyBird.integrate dt (FlappyBird.jump true g.bird)).Position.Y)) ∧
    (∀ (p : FlappyBird.Pipe) (score : Int)
        (draw : Fin (FlappyBird.screenHeight - FlappyBird.pipeGap)),
      (FlappyBird.playingTick true dt10 draw
          (FlappyBird.gameOf (FlappyBird.birdAt (F32.ofInt 400) (F32.ofInt 0)) p score
            false)).bird.Speed = F32.ofInt (-260) ∧
      (FlappyBird.playingTick true dt10 draw
          (FlappyBird.gameOf (FlappyBird.birdAt (F32.ofInt 400) (F32.ofInt 0)) p score
            false)).bird.Position.Y = F32.ofInt 374) := by
  have e1 : F32.add (F32.ofInt (-300)) (F32.mul (F32.ofInt 400) dt10) = F32.ofInt (-260) := by
    decide
  have e2 : F32.add (F32.ofInt 400) (F32.mul (F32.ofInt (-260)) dt10) = F32.ofInt 374 := by
    decide
  have e3 : F32.lt (F32.ofInt 374) (F32.ofInt 0) = false := by decide
  refine ⟨?_, ?_, ?_, ?_⟩
  · intro g dt draw
    refine ⟨?_, ?_, ?_, ?_, ?_⟩
    · simp [Main.integrate, Main.jump, Main.gravity, Main.jumpSpeed]
    · simp [Main.integrate, Main.jump, Main.gravity, Main.jumpSpeed]
    · simp [Main.playingUpdate, Main.integrate, Main.jump, Main.gravity, Main.jumpSpeed]
    · simp [Main.playingUpdate, Main.checkBounds_Y]
    · intro h0 h8
      exact (Main.playingTick_some true dt draw g h0 h8).1
  · intro p score draw
    constructor
    · simp [Main.playingUpdate, Main.integrate, Main.jump, Main.gravity, Main.jumpSpeed,
        Main.gameOf, Main.birdAt, e1]
    · simp [Main.playingUpdate, Main.checkBounds_Y, Main.integrate, Main.jump, Main.gravity,
        Main.jumpSpeed, Main.gameOf, Main.birdAt, e1, e2, e3]
  · intro g dt draw
    refine ⟨?_, ?_, ?_, ?_⟩
    · simp [FlappyBird.integrate, FlappyBird.jump, FlappyBird.gravity, FlappyBird.jumpSpeed]
    · simp [FlappyBird.integrate, FlappyBird.jump, FlappyBird.gravity, FlappyBird.jumpSpeed]
    · simp [FlappyBird.playingTick, FlappyBird.integrate, FlappyBird.jump, FlappyBird.gravity,
        FlappyBird.jumpSpeed]
    · simp [FlappyBird.playingTick, FlappyBird.checkBounds_Y_plain]
  · intro p score draw
    constructor
    · simp [FlappyBird.playingTick, FlappyBird.integrate, FlappyBird.jump,
        FlappyBird.gravity, FlappyBird.jumpSpeed, FlappyBird.gameOf, FlappyBird.birdAt, e1]
    · simp [FlappyBird.playingTick, FlappyBird.checkBounds_Y_plain, FlappyBird.integrate,
        FlappyBird.jump, FlappyBird.gravity, FlappyBird.jumpSpeed, FlappyBird.gameOf,
        FlappyBird.birdAt, e1, e2, e3]

/-- Witness for `impulse_then_integrate`: the bird at height `400`, frame `3`. -/
theorem impulse_then_integrate_witness :
    (0 : Int) ≤ (Main.gameOf (Main.birdAt (F32.ofInt 400) (F32.ofInt 0) 3)
      (Main.pipeAt (F32.ofInt 800) (F32.ofInt 200)) 0 false).bird.Frame ∧
    (Main.gameOf (Main.birdAt (F32.ofInt 400) (F32.ofInt 0) 3)
      (Main.pipeAt (F32.ofInt 800) (F32.ofInt 200)) 0 false).bird.Frame < 8 ∧
    Main.playingTick true dt10 ⟨0, by decide⟩
        (Main.gameOf (Main.birdAt (F32.ofInt 400) (F32.ofInt 0) 3)
          (Main.pipeAt (F32.ofInt 800) (F32.ofInt 200)) 0 false)
      = some (Main.playingUpdate true dt10 ⟨0, by decide⟩
        (Main.gameOf (Main.birdAt (F32.ofInt 400) (F32.ofInt 0) 3)
          (Main.pipeAt (F32.ofInt 800) (F32.ofInt 200)) 0 false)) :=
  ⟨by decide, by decide,
    (impulse_then_integrate.1 (Main.gameOf (Main.birdAt (F32.ofInt 400) (F32.ofInt 0) 3)
      (Main.pipeAt (F32.ofInt 800) (F32.ofInt 200)) 0 false) dt10 ⟨0, by decide⟩).2.2.2.2
      (by decide) (by decide)⟩

/-- C3 (as stated, refuted): from speed `0` and height `100`, a step of
`dt = float32(0.1)` without impulse leaves the height `104` before the bounds
check, not `100 + 0 * dt = 100`. -/
theorem integrate_old_speed_counterexample :
    ¬ (F32.toRat (Main.integrate dt10 (Main.jump false
          (Main.birdAt (F32.ofInt 100) (F32.ofInt 0) 0))).Position.Y
        = 100 + 0 * F32.toRat dt10) := by
  have h : (Main.integrate dt10 (Main.jump false
      (Main.birdAt (F32.ofInt 100) (F32.ofInt 0) 0))).Position.Y
      = F32.fin (104 * 2 ^ 149) := by decide
  rw [h]
  norm_num [F32.toRat]

/-- C3 (amended): in both games, a Playing tick without impulse from speed `v`
and height `y` gives the speed `v + 400*dt`, and the height before the bounds
check is `y + (v + 400*dt)*dt`, every operation being a float32 operation
rounded on its own: the step moves the bird with the speed it has just
computed, not with the speed it started from. The tick leaves that speed and
that height with values below `0` replaced by `0`. From `v = 0`, `y = 100`,
`dt = float32(0.1)` the speed is `40` and the height `104`. -/
theorem integrate_uses_new_speed :
    (∀ (g : Main.Game) (dt : F32) (draw : Fin (Main.screenHeight - Main.pipeGap)),
      (Main.integrate dt (Main.jump false g.bird)).Speed
        = F32.add g.bird.Speed (F32.mul (F32.ofInt 400) dt) ∧
      (Main.integrate dt (Main.jump false g.bird)).Position.Y =
        F32.add g.bird.Position.Y
          (F32.mul (F32.add g.bird.Speed (F32.mul (F32.ofInt 400) dt)) dt) ∧
      (Main.playingUpdate false dt draw g).bird.Speed
        = F32.add g.bird.Speed (F32.mul (F32.ofInt 400) dt) ∧
      (Main.playingUpdate false dt draw g).bird.Position.Y =
        (if F32.lt (Main.integrate dt (Main.jump false g.bird)).Position.Y (F32.ofInt 0) = true
          then F32.ofInt 0
          else (Main.integrate dt (Main.jump false g.bird)).Position.Y)) ∧
    ((Main.integrate dt10 (Main.jump false
        (Main.birdAt (F32.ofInt 100) (F32.ofInt 0) 0))).Speed = F32.ofInt 40 ∧
      (Main.integrate dt10 (Main.jump false
        (Main.birdAt (F32.ofInt 100) (F32.ofInt 0) 0))).Position.Y = F32.ofInt 104) ∧
    (∀ (g : FlappyBird.Game) (dt : F32)
        (draw : Fin (FlappyBird.screenHeight - FlappyBird.pipeGap)),
      (FlappyBird.integrate dt (FlappyBird.jump false g.bird)).Speed
        = F32.add g.bird.Speed (F32.mul (F32.ofInt 400) dt) ∧
      (FlappyBird.integrate dt (FlappyBird.jump false g.bird)).Position.Y =
        F32.add g.bird.Position.Y
          (F32.mul (F32.add g.bird.Speed (F32.mul (F32.ofInt 400) dt)) dt) ∧
      (FlappyBird.playingTick false dt draw g).bird.Speed
        = F32.add g.bird.Speed (F32.mul (F32.ofInt 400) dt) ∧
      (FlappyBird.playingTick false dt draw g).bird.Position.Y =
        (if F32.lt (FlappyBird.integrate dt (FlappyBird.jump false g.bird)).Position.Y
            (F32.ofInt 0) = true
          then F32.ofInt 0
          else (FlappyBird.integrate dt (FlappyBird.jump false g.bird)).Position.Y)) := by
  refine ⟨?_, ⟨by decide, by decide⟩, ?_⟩
  · intro g dt draw
    refine ⟨?_, ?_, ?_, ?_⟩
    · simp [Main.integrate, Main.jump, Main.gravity]
    · simp [Main.integrate, Main.jump, Main.gravity]
    · simp [Main.playingUpdate, Main.integrate, Main.jump, Main.gravity]
    · simp [Main.playingUpdate, Main.checkBounds_Y]
  · intro g dt draw
    refine ⟨?_, ?_, ?_, ?_⟩
    · simp [FlappyBird.integrate, FlappyBird.jump, FlappyBird.gravity]
    · simp [FlappyBird.integrate, FlappyBird.jump, FlappyBird.gravity]
    · simp [FlappyBird.playingTick, FlappyBird.integrate, FlappyBird.jump, FlappyBird.gravity]
    · simp [FlappyBird.playingTick, FlappyBird.checkBounds_Y_plain]

/-! ## Falling out of the screen -/

/-- C4 (as stated, refuted): the bird is at height `449` falling at speed `200`,
the pipe at `x = -49` with gap centre `200`, the score `5`, and the frame lasts
`float32(1/60)` s. The height after integration exceeds `450`, and the same
tick still moves the pipe past `-50`, respawns it at `x = 800` and raises the
score to `6`. -/
theorem out_of_bounds_stops_tick_counterexample :
    ¬ (F32.gt (Main.integrate dt60 (Main.jump false
            (Main.birdAt (F32.ofInt 449) (F32.ofInt 200) 0))).Position.Y (F32.ofInt 450) = true →
        (Main.playingTick false dt60 ⟨0, by decide⟩
            (Main.gameOf (Main.birdAt (F32.ofInt 449) (F32.ofInt 200) 0)
              (Main.pipeAt (F32.ofInt (-49)) (F32.ofInt 200)) 5 false)
          = some (Main.playingUpdate false dt60 ⟨0, by decide⟩
            (Main.gameOf (Main.birdAt (F32.ofInt 449) (F32.ofInt 200) 0)
              (Main.pipeAt (F32.ofInt (-49)) (F32.ofInt 200)) 5 false)) ∧
          (Main.playingUpdate false dt60 ⟨0, by decide⟩
            (Main.gameOf (Main.birdAt (F32.ofInt 449) (F32.ofInt 200) 0)
              (Main.pipeAt (F32.ofInt (-49)) (F32.ofInt 200)) 5 false)).gameOver = true ∧
          (Main.playingUpdate false dt60 ⟨0, by decide⟩
            (Main.gameOf (Main.birdAt (F32.ofInt 449) (F32.ofInt 200) 0)
              (Main.pipeAt (F32.ofInt (-49)) (F32.ofInt 200)) 5 false)).pipe
              = Main.pipeAt (F32.ofInt (-49)) (F32.ofInt 200) ∧
          (Main.playingUpdate false dt60 ⟨0, by decide⟩
            (Main.gameOf (Main.birdAt (F32.ofInt 449) (F32.ofInt 200) 0)
              (Main.pipeAt (F32.ofInt (-49)) (F32.ofInt 200)) 5 false)).score = 5)) := by
  intro h
  have h2 := (h (by decide)).2.2.2
  exact absurd h2 (by decide)

/-- C4 (amended): in both games, when the float32 height after integration
exceeds `450` the tick ends with `gameOver` set and the height left as
integrated (not clamped), but the rest of the tick still runs: the pipe moves
by `200*dt` (float32), and if that takes it below `-50` it is respawned by
`NewPipe` and the score is incremented (a 64-bit `++`); otherwise the gap
centre and the score are unchanged. In the animated game the tick yields a
state when the frame index is in `0 .. 7`. A bird at `y = 450` with speed `0`
and `dt = 2^(-16)` integrates to exactly `450` and stays in play. -/
theorem out_of_bounds_tick :
    (∀ (keyW : Bool) (dt : F32) (draw : Fin (Main.screenHeight - Main.pipeGap)) (g : Main.Game),
      F32.gt (Main.integrate dt (Main.jump keyW g.bird)).Position.Y (F32.ofInt 450) = true →
        (0 ≤ g.bird.Frame → g.bird.Frame < 8 →
          Main.playingTick keyW dt draw g = some (Main.playingUpdate keyW dt draw g)) ∧
        (Main.playingUpdate keyW dt draw g).gameOver = true ∧
        (Main.playingUpdate keyW dt draw g).bird.Position.Y =
          (Main.integrate dt (Main.jump keyW g.bird)).Position.Y ∧
        (F32.lt (F32.sub g.pipe.Position.X (F32.mul (F32.ofInt 200) dt)) (F32.ofInt (-50)) = true →
          (Main.playingUpdate keyW dt draw g).pipe = Main.NewPipe draw ∧
          (Main.playingUpdate keyW dt draw g).score = wrap64 (g.score + 1)) ∧
        (F32.lt (F32.sub g.pipe.Position.X (F32.mul (F32.ofInt 200) dt)) (F32.ofInt (-50)) = false →
          (Main.playingUpdate keyW dt draw g).pipe.Position.X
            = F32.sub g.pipe.Position.X (F32.mul (F32.ofInt 200) dt) ∧
          (Main.playingUpdate keyW dt draw g).pipe.GapY = g.pipe.GapY ∧
          (Main.playingUpdate keyW dt draw g).score = g.score)) ∧
    ((Main.integrate (F32.ofBits 1 (-16)) (Main.jump false
        (Main.birdAt (F32.ofInt 450) (F32.ofInt 0) 0))).Position.Y = F32.ofInt 450 ∧
      (Main.playingUpdate false (F32.ofBits 1 (-16)) ⟨0, by decide⟩
        (Main.gameOf (Main.birdAt (F32.ofInt 450) (F32.ofInt 0) 0)
          (Main.pipeAt (F32.ofInt 800) (F32.ofInt 200)) 0 false)).gameOver = false) ∧
    (∀ (keyW : Bool) (dt : F32) (draw : Fin (FlappyBird.screenHeight - FlappyBird.pipeGap))
        (g : FlappyBird.Game),
      F32.gt (FlappyBird.integrate dt (FlappyBird.jump keyW g.bird)).Position.Y (F32.ofInt 450)
          = true →
        (FlappyBird.playingTick keyW dt draw g).gameOver = true ∧
        (FlappyBird.playingTick keyW dt draw g).bird.Position.Y =
          (FlappyBird.integrate dt (FlappyBird.jump keyW g.bird)).Position.Y ∧
        (F32.lt (F32.sub g.pipe.Position.X (F32.mul (F32.ofInt 200) dt)) (F32.ofInt (-50)) = true →
          (FlappyBird.playingTick keyW dt draw g).pipe = FlappyBird.NewPipe draw ∧
          (FlappyBird.playingTick keyW dt draw g).score = wrap64 (g.score + 1)) ∧
        (F32.lt (F32.sub g.pipe.Position.X (F32.mul (F32.ofInt 200) dt)) (F32.ofInt (-50)) = false →
          (FlappyBird.playingTick keyW dt draw g).pipe.Position.X
            = F32.sub g.pipe.Position.X (F32.mul (F32.ofInt 200) dt) ∧
          (FlappyBird.playingTick keyW dt draw g).pipe.GapY = g.pipe.GapY ∧
          (FlappyBird.playingTick keyW dt draw g).score = g.score)) := by
  refine ⟨?_, ⟨by decide, by decide⟩, ?_⟩
  · intro keyW dt draw g h
    have hneg := F32.not_lt_zero_of_gt _ h
    refine ⟨fun h0 h8 => (Main.playingTick_some keyW dt draw g h0 h8).1, ?_, ?_, ?_, ?_⟩
    · have hb : (Main.checkBounds
          { g with bird := Main.integrate dt (Main.jump keyW g.bird) }).gameOver = true :=
        (Main.checkBounds_gameOver _).2 (Or.inr h)
      simp [Main.playingUpdate, Main.checkCollision_gameOver, hb]
    · simp [Main.playingUpdate, Main.checkBounds_Y, hneg]
    · intro hx
      simp [Main.playingUpdate, Main.movePipe_pipe, Main.movePipe_score, hx]
    · intro hx
      simp [Main.playingUpdate, Main.movePipe_pipe, Main.movePipe_score, hx]
  · intro keyW dt draw g h
    have hneg := F32.not_lt_zero_of_gt _ h
    refine ⟨?_, ?_, ?_, ?_⟩
    · have hb : (FlappyBird.checkBounds
          { g with bird := FlappyBird.integrate dt (FlappyBird.jump keyW g.bird) }).gameOver
          = true :=
        (FlappyBird.checkBounds_gameOver_plain _).2 (Or.inr h)
      simp [FlappyBird.playingTick, FlappyBird.checkCollision_gameOver_plain, hb]
    · simp [FlappyBird.playingTick, FlappyBird.checkBounds_Y_plain, hneg]
    · intro hx
      simp [FlappyBird.playingTick, FlappyBird.movePipe_pipe_plain,
        FlappyBird.movePipe_score_plain, hx]
    · intro hx
      simp [FlappyBird.playingTick, FlappyBird.movePipe_pipe_plain,
        FlappyBird.movePipe_score_plain, hx]

/-- Witness for `out_of_bounds_tick`: the falling bird of the counterexample,
with the pipe at `x = -49` and the frame index `5`. -/
theorem out_of_bounds_tick_witness :
    F32.gt (Main.integrate dt60 (Main.jump false
      (Main.birdAt (F32.ofInt 449) (F32.ofInt 200) 5))).Position.Y (F32.ofInt 450) = true ∧
    Main.playingTick false dt60 ⟨0, by decide⟩
        (Main.gameOf (Main.birdAt (F32.ofInt 449) (F32.ofInt 200) 5)
          (Main.pipeAt (F32.ofInt (-49)) (F32.ofInt 200)) 5 false)
      = some (Main.playingUpdate false dt60 ⟨0, by decide⟩
        (Main.gameOf (Main.birdAt (F32.ofInt 449) (F32.ofInt 200) 5)
          (Main.pipeAt (F32.ofInt (-49)) (F32.ofInt 200)) 5 false)) ∧
    (Main.playingUpdate false dt60 ⟨0, by decide⟩
        (Main.gameOf (Main.birdAt (F32.ofInt 449) (F32.ofInt 200) 5)
          (Main.pipeAt (F32.ofInt (-49)) (F32.ofInt 200)) 5 false)).gameOver = true ∧
    (Main.playingUpdate false dt60 ⟨0, by decide⟩
        (Main.gameOf (Main.birdAt (F32.ofInt 449) (F32.ofInt 200) 5)
          (Main.pipeAt (F32.ofInt (-49)) (F32.ofInt 200)) 5 false)).score = wrap64 (5 + 1) :=
  have h : F32.gt (Main.integrate dt60 (Main.jump false
      (Main.gameOf (Main.birdAt (F32.ofInt 449) (F32.ofInt 200) 5)
        (Main.pipeAt (F32.ofInt (-49)) (F32.ofInt 200)) 5 false).bird)).Position.Y
      (F32.ofInt 450) = true := by decide
  ⟨h, (out_of_bounds_tick.1 false dt60 ⟨0, by decide⟩ _ h).1 (by decide) (by decide),
    (out_of_bounds_tick.1 false dt60 ⟨0, by decide⟩ _ h).2.1,
    ((out_of_bounds_tick.1 false dt60 ⟨0, by decide⟩ _ h).2.2.2.1 (by decide)).2⟩

/-! ## Pipe recycling and the score -/

/-- C5 (as stated, refuted): the pipe is at `x = -50` and the frame lasts
`2^(-30)` s, so `x - 200*dt` is below `-50`; but the float32 difference rounds
back to `-50`, the pipe is not recycled and the score stays `3`. -/
theorem recycle_exact_advance_counterexample :
    ¬ (F32.toRat (F32.ofInt (-50)) - 200 * F32.toRat (F32.ofBits 1 (-30)) < -50 →
        ((Main.playingUpdate false (F32.ofBits 1 (-30)) ⟨0, by decide⟩
            (Main.gameOf (Main.birdAt (F32.ofInt 225) (F32.ofInt 0) 0)
              (Main.pipeAt (F32.ofInt (-50)) (F32.ofInt 200)) 3 false)).pipe.Position.X
              = F32.ofInt 800 ∧
          (Main.playingUpdate false (F32.ofBits 1 (-30)) ⟨0, by decide⟩
            (Main.gameOf (Main.birdAt (F32.ofInt 225) (F32.ofInt 0) 0)
              (Main.pipeAt (F32.ofInt (-50)) (F32.ofInt 200)) 3 false)).score = 3 + 1)) := by
  intro h
  have e1 : F32.ofInt (-50) = F32.fin (-50 * 2 ^ 149) := by decide
  have e2 : F32.ofBits 1 (-30) = F32.fin (2 ^ 119) := by decide
  have hx : F32.toRat (F32.ofInt (-50)) - 200 * F32.toRat (F32.ofBits 1 (-30)) < -50 := by
    rw [e1, e2]
    norm_num [F32.toRat]
  exact absurd (h hx).2 (by decide)

/-- C5 (amended): in a Playing tick of the animated game, let `x'` be the
float32 result of `x - 200*dt`. If `x' < -50`, the tick leaves the pipe at
`x = 800` with its gap centre in `[75, 375]` and the score incremented by a
64-bit `++`: one higher, except that `2^63 - 1` wraps to `-2^63`. Otherwise the
score is unchanged and the pipe is at `x'`. The tick yields a state when the
frame index is in `0 .. 7`. With the pipe at `x = -51`, every `dt > 0` recycles
it and increments the score once. -/
theorem recycle_and_score :
    (∀ (keyW : Bool) (dt : F32) (draw : Fin (Main.screenHeight - Main.pipeGap)) (g : Main.Game),
      (F32.lt (F32.sub g.pipe.Position.X (F32.mul (F32.ofInt 200) dt)) (F32.ofInt (-50)) = true →
        (Main.playingUpdate keyW dt draw g).pipe.Position.X = F32.ofInt 800 ∧
        F32.le (F32.ofInt 75) (Main.playingUpdate keyW dt draw g).pipe.GapY = true ∧
        F32.le (Main.playingUpdate keyW dt draw g).pipe.GapY (F32.ofInt 375) = true ∧
        (Main.playingUpdate keyW dt draw g).score = wrap64 (g.score + 1) ∧
        (-(2 ^ 63) ≤ g.score → g.score < 2 ^ 63 - 1 →
          (Main.playingUpdate keyW dt draw g).score = g.score + 1)) ∧
      (F32.lt (F32.sub g.pipe.Position.X (F32.mul (F32.ofInt 200) dt)) (F32.ofInt (-50)) = false →
        (Main.playingUpdate keyW dt draw g).score = g.score ∧
        (Main.playingUpdate keyW dt draw g).pipe.Position.X
          = F32.sub g.pipe.Position.X (F32.mul (F32.ofInt 200) dt)) ∧
      (0 ≤ g.bird.Frame → g.bird.Frame < 8 →
        Main.playingTick keyW dt draw g = some (Main.playingUpdate keyW dt draw g))) ∧
    (∀ (keyW : Bool) (dt : F32) (draw : Fin (Main.screenHeight - Main.pipeGap)) (g : Main.Game),
      g.pipe.Position.X = F32.ofInt (-51) → F32.lt (F32.ofInt 0) dt = true →
        (Main.playingUpdate keyW dt draw g).pipe.Position.X = F32.ofInt 800 ∧
        (Main.playingUpdate keyW dt draw g).score = wrap64 (g.score + 1)) ∧
    wrap64 (2 ^ 63 - 1 + 1) = -(2 ^ 63) := by
  refine ⟨?_, ?_, by decide⟩
  · intro keyW dt draw g
    have r := Main.NewPipe_range draw
    refine ⟨?_, ?_, fun h0 h8 => (Main.playingTick_some keyW dt draw g h0 h8).1⟩
    · intro hx
      have hp : (Main.playingUpdate keyW dt draw g).pipe = Main.NewPipe draw := by
        simp [Main.playingUpdate, Main.movePipe_pipe, hx]
      have hs : (Main.playingUpdate keyW dt draw g).score = wrap64 (g.score + 1) := by
        simp [Main.playingUpdate, Main.movePipe_score, hx]
      refine ⟨?_, ?_, ?_, hs, ?_⟩
      · rw [hp]; exact r.1
      · rw [hp]; exact r.2.2.2.1
      · rw [hp]
        have e : (Main.NewPipe draw).GapY = F32.ofInt (((draw : Nat) + 75 : Nat) : Int) := r.2.1
        have hd : (draw : Nat) < 300 := draw.isLt
        have e375 : F32.ofInt 375 = F32.fin (375 * 2 ^ 149) := by decide
        rewrite [e, (F32.add_draw (draw : Nat) hd).2, e375]
        simp only [F32.le, decide_eq_true_eq]
        have hle : (((draw : Nat) + 75 : Nat) : Int) ≤ 375 := by omega
        have hpos : (0 : Int) < 2 ^ 149 := by positivity
        exact mul_le_mul_of_nonneg_right hle (le_of_lt hpos)
      · intro h1 h2
        rw [hs]
        exact wrap64_of_lt _ (by omega) (by omega)
    · intro hx
      constructor
      · simp [Main.playingUpdate, Main.movePipe_score, hx]
      · simp [Main.playingUpdate, Main.movePipe_pipe, hx]
  · intro keyW dt draw g hx hdt
    have hlt := F32.below_after_step dt hdt
    rw [← hx] at hlt
    constructor
    · have hp : (Main.playingUpdate keyW dt draw g).pipe = Main.NewPipe draw := by
        simp [Main.playingUpdate, Main.movePipe_pipe, hlt]
      rw [hp]; exact (Main.NewPipe_range draw).1
    · simp [Main.playingUpdate, Main.movePipe_score, hlt]

/-- Witness for `recycle_and_score`: the pipe at `x = -51`, the score `3`, the
frame index `2` and a frame of `float32(1/60)` s. -/
theorem recycle_and_score_witness :
    F32.lt (F32.sub (Main.gameOf (Main.birdAt (F32.ofInt 225) (F32.ofInt 0) 2)
        (Main.pipeAt (F32.ofInt (-51)) (F32.ofInt 200)) 3 false).pipe.Position.X
      (F32.mul (F32.ofInt 200) dt60)) (F32.ofInt (-50)) = true ∧
    (Main.playingUpdate false dt60 ⟨7, by decide⟩
      (Main.gameOf (Main.birdAt (F32.ofInt 225) (F32.ofInt 0) 2)
        (Main.pipeAt (F32.ofInt (-51)) (F32.ofInt 200)) 3 false)).score = 3 + 1 ∧
    Main.playingTick false dt60 ⟨7, by decide⟩
      (Main.gameOf (Main.birdAt (F32.ofInt 225) (F32.ofInt 0) 2)
        (Main.pipeAt (F32.ofInt (-51)) (F32.ofInt 200)) 3 false)
      = some (Main.playingUpdate false dt60 ⟨7, by decide⟩
        (Main.gameOf (Main.birdAt (F32.ofInt 225) (F32.ofInt 0) 2)
          (Main.pipeAt (F32.ofInt (-51)) (F32.ofInt 200)) 3 false)) ∧
    F32.lt (F32.ofInt 0) dt60 = true ∧
    (Main.playingUpdate false dt60 ⟨7, by decide⟩
      (Main.gameOf (Main.birdAt (F32.ofInt 225) (F32.ofInt 0) 2)
        (Main.pipeAt (F32.ofInt (-51)) (F32.ofInt 200)) 3 false)).pipe.Position.X
        = F32.ofInt 800 :=
  have hx : F32.lt (F32.sub (Main.gameOf (Main.birdAt (F32.ofInt 225) (F32.ofInt 0) 2)
        (Main.pipeAt (F32.ofInt (-51)) (F32.ofInt 200)) 3 false).pipe.Position.X
      (F32.mul (F32.ofInt 200) dt60)) (F32.ofInt (-50)) = true := by decide
  ⟨hx, ((recycle_and_score.1 false dt60 ⟨7, by decide⟩ _).1 hx).2.2.2.2 (by decide) (by decide),
    (recycle_and_score.1 false dt60 ⟨7, by decide⟩ _).2.2 (by decide) (by decide),
    by decide,
    (recycle_and_score.2.1 false dt60 ⟨7, by decide⟩
      (Main.gameOf (Main.birdAt (F32.ofInt 225) (F32.ofInt 0) 2)
        (Main.pipeAt (F32.ofInt (-51)) (F32.ofInt 200)) 3 false) (by decide) (by decide)).1⟩

/-! ## Spawning a pipe: the range -/

/-- C10 (as stated, refuted): no draw of `rand.Intn(300)` puts the gap centre
at `375`. -/
theorem spawn_upper_endpoint_counterexample :
    ¬ ∃ draw : Fin (Main.screenHeight - Main.pipeGap),
        (Main.NewPipe draw).GapY = F32.ofInt 375 := by
  rintro ⟨draw, h⟩
  have r := (Main.NewPipe_range draw).2.2.1
  rw [h] at r
  have e : F32.toRat (F32.ofInt 375) = 375 := by
    have e375 : F32.ofInt 375 = F32.fin (375 * 2 ^ 149) := by decide
    rw [e375]
    norm_num [F32.toRat]
  rw [e] at r
  have hd : (draw : Nat) < 300 := draw.isLt
  have : ((draw : Nat) : ℚ) < 300 := by exact_mod_cast hd
  linarith

/-- C10 (amended): in both games `NewPipe` places the pipe at `x = 800` and the
gap centre is the drawn integer plus `75`, computed exactly, the draw ranging
over `0 .. 299`; so the gap centre takes the values `75 .. 374`: `75` for the
draw `0`, `374` for the draw `299`, and never `375`. -/
theorem spawn_range :
    (∀ draw : Fin (Main.screenHeight - Main.pipeGap),
      (Main.NewPipe draw).Position.X = F32.ofInt 800 ∧
      (Main.NewPipe draw).GapY = F32.ofInt (((draw : Nat) + 75 : Nat) : Int) ∧
      F32.toRat (Main.NewPipe draw).GapY = ((draw : Nat) : ℚ) + 75 ∧
      F32.le (F32.ofInt 75) (Main.NewPipe draw).GapY = true ∧
      F32.le (Main.NewPipe draw).GapY (F32.ofInt 374) = true) ∧
    F32.toRat (F32.ofInt 800) = 800 ∧
    (Main.NewPipe ⟨0, by decide⟩).GapY = F32.ofInt 75 ∧
    (Main.NewPipe ⟨299, by decide⟩).GapY = F32.ofInt 374 ∧
    (∀ draw : Fin (FlappyBird.screenHeight - FlappyBird.pipeGap),
      (FlappyBird.NewPipe draw).Position.X = F32.ofInt 800 ∧
      (FlappyBird.NewPipe draw).GapY = F32.ofInt (((draw : Nat) + 75 : Nat) : Int) ∧
      F32.toRat (FlappyBird.NewPipe draw).GapY = ((draw : Nat) : ℚ) + 75 ∧
      F32.le (F32.ofInt 75) (FlappyBird.NewPipe draw).GapY = true ∧
      F32.le (FlappyBird.NewPipe draw).GapY (F32.ofInt 374) = true) ∧
    (FlappyBird.NewPipe ⟨0, by decide⟩).GapY = F32.ofInt 75 ∧
    (FlappyBird.NewPipe ⟨299, by decide⟩).GapY = F32.ofInt 374 := by
  refine ⟨Main.NewPipe_range, ?_, by decide, by decide, FlappyBird.NewPipe_range_plain,
    by decide, by decide⟩
  have e800 : F32.ofInt 800 = F32.fin (800 * 2 ^ 149) := by decide
  rw [e800]
  norm_num [F32.toRat]

/-! ## Saving and loading -/

/-- The load action after a successful save of a finite state. -/
theorem Main.load_after_save (s g : Main.Game)
    (h : Main.finiteState { Bird := s.bird, Pipe := s.pipe, Score := s.score } = true) :
    Main.loadAction { g with disk := (Main.saveAction WriteResult.ok s).disk } =
      { g with bird := s.bird, pipe := s.pipe, score := s.score, gameOver := false
               disk := (Main.saveAction WriteResult.ok s).disk } := by
  obtain ⟨doc, h1, h2⟩ := Main.Unmarshal_Marshal _ h
  simp [Main.loadAction, Main.saveAction, Main.SaveGame, Main.LoadGame, h1, h2]

/-- The load action after a successful save of a finite state. -/
theorem FlappyBird.load_after_save_plain (s g : FlappyBird.Game)
    (h : FlappyBird.finiteState { Bird := s.bird, Pipe := s.pipe, Score := s.score } = true) :
    FlappyBird.loadAction { g with disk := (FlappyBird.saveAction WriteResult.ok s).disk } =
      { g with bird := s.bird, pipe := s.pipe, score := s.score, gameOver := false
               disk := (FlappyBird.saveAction WriteResult.ok s).disk } := by
  obtain ⟨doc, h1, h2⟩ := FlappyBird.Unmarshal_Marshal_plain _ h
  simp [FlappyBird.loadAction, FlappyBird.saveAction, FlappyBird.SaveGame,
    FlappyBird.LoadGame, h1, h2]

/-- C6 (as stated, refuted): the game was saved in its initial state; then a
frame of `2^127` s overflows the speed and the height to `+Inf` and ends the
game. `SaveGame` on that state fails in `json.MarshalIndent` and leaves the old
file, and the load action brings back the initial bird, not the one that was
to be saved. -/
theorem save_load_infinite_height_counterexample :
    (Main.run [Main.idle (F32.ofBits 1 127) ⟨0, by decide⟩] (Main.init ⟨0, by decide⟩)).map
        (fun s => (s.bird.Position.Y, s.gameOver)) = some (F32.inf false, true) ∧
    ¬ ((Main.loadAction (Main.saveAction WriteResult.ok
          { Main.gameOf (Main.birdAt (F32.inf false) (F32.inf false) 1)
              (Main.pipeAt (F32.ofInt 800) (F32.ofInt 75)) 1 true with
            disk := (Main.saveAction WriteResult.ok (Main.init ⟨0, by decide⟩)).disk })).bird
        = Main.birdAt (F32.inf false) (F32.inf false) 1) := by
  constructor
  · decide
  · decide

/-- C6 (amended): in both games, for every state `s` whose float32 fields are
all finite (in either phase), after `SaveGame` has written `s` with a write
that succeeds, the load action run from any live state `g` leaves the bird
(position, speed and, in the animated game, frame index), the pipe and the
score of `s`, and the phase Playing; nothing else of `g` changes. If a float32
field of `s` is NaN or an infinity, `SaveGame` prints `Error saving game` and
leaves the file as it was. -/
theorem save_load_round_trip :
    (∀ s g : Main.Game,
      Main.finiteState { Bird := s.bird, Pipe := s.pipe, Score := s.score } = true →
      (Main.loadAction { g with disk := (Main.saveAction WriteResult.ok s).disk }).bird
        = s.bird ∧
      (Main.loadAction { g with disk := (Main.saveAction WriteResult.ok s).disk }).pipe
        = s.pipe ∧
      (Main.loadAction { g with disk := (Main.saveAction WriteResult.ok s).disk }).score
        = s.score ∧
      (Main.loadAction { g with disk := (Main.saveAction WriteResult.ok s).disk }).gameOver
        = false ∧
      (Main.loadAction { g with disk := (Main.saveAction WriteResult.ok s).disk }).frameCounter
        = g.frameCounter) ∧
    (∀ (w : WriteResult) (s : Main.Game),
      (s.bird.Position.X.isFinite && s.bird.Position.Y.isFinite && s.bird.Speed.isFinite &&
        s.pipe.Position.X.isFinite && s.pipe.Position.Y.isFinite && s.pipe.GapY.isFinite)
          = false →
      Main.SaveGame w s.disk s.bird s.pipe s.score = (s.disk, some "Error saving game")) ∧
    (∀ s g : FlappyBird.Game,
      FlappyBird.finiteState { Bird := s.bird, Pipe := s.pipe, Score := s.score } = true →
      (FlappyBird.loadAction
        { g with disk := (FlappyBird.saveAction WriteResult.ok s).disk }).bird = s.bird ∧
      (FlappyBird.loadAction
        { g with disk := (FlappyBird.saveAction WriteResult.ok s).disk }).pipe = s.pipe ∧
      (FlappyBird.loadAction
        { g with disk := (FlappyBird.saveAction WriteResult.ok s).disk }).score = s.score ∧
      (FlappyBird.loadAction
        { g with disk := (FlappyBird.saveAction WriteResult.ok s).disk }).gameOver = false) := by
  refine ⟨?_, ?_, ?_⟩
  · intro s g h
    rw [Main.load_after_save s g h]
    exact ⟨rfl, rfl, rfl, rfl, rfl⟩
  · intro w s h
    have hm := Main.Marshal_none { Bird := s.bird, Pipe := s.pipe, Score := s.score } h
    simp [Main.SaveGame, hm]
  · intro s g h
    rw [FlappyBird.load_after_save_plain s g h]
    exact ⟨rfl, rfl, rfl, rfl⟩

/-- Witness for `save_load_round_trip`: a state in mid-flight is saved, the
game is over with another bird, and the load brings the saved bird back. -/
theorem save_load_round_trip_witness :
    Main.finiteState
      { Bird := Main.birdAt (F32.ofInt 300) dt60 3, Pipe := Main.pipeAt (F32.ofInt 420) (F32.ofInt 99)
        Score := 7 } = true ∧
    (Main.loadAction
      { Main.gameOf (Main.birdAt (F32.ofInt 460) (F32.ofInt 300) 5)
          (Main.pipeAt (F32.ofInt 100) (F32.ofInt 200)) 9 true with
        disk := (Main.saveAction WriteResult.ok
          (Main.gameOf (Main.birdAt (F32.ofInt 300) dt60 3)
            (Main.pipeAt (F32.ofInt 420) (F32.ofInt 99)) 7 false)).disk }).bird
      = Main.birdAt (F32.ofInt 300) dt60 3 :=
  ⟨by decide,
    (save_load_round_trip.1
      (Main.gameOf (Main.birdAt (F32.ofInt 300) dt60 3)
        (Main.pipeAt (F32.ofInt 420) (F32.ofInt 99)) 7 false)
      (Main.gameOf (Main.birdAt (F32.ofInt 460) (F32.ofInt 300) 5)
        (Main.pipeAt (F32.ofInt 100) (F32.ofInt 200)) 9 true) (by decide)).1⟩

/-- C7 (as stated, refuted): the game is over, the bird lying at height `460`,
and there is no save file. The load action leaves bird, pipe and score alone
but the phase is Playing afterwards, not GameOver. -/
theorem load_missing_keeps_phase_counterexample :
    ¬ ((Main.loadAction
          (Main.gameOf (Main.birdAt (F32.ofInt 460) (F32.ofInt 300) 0)
            (Main.pipeAt (F32.ofInt 400) (F32.ofInt 200)) 2 true)).bird
            = Main.birdAt (F32.ofInt 460) (F32.ofInt 300) 0 ∧
        (Main.loadAction
          (Main.gameOf (Main.birdAt (F32.ofInt 460) (F32.ofInt 300) 0)
            (Main.pipeAt (F32.ofInt 400) (F32.ofInt 200)) 2 true)).pipe
            = Main.pipeAt (F32.ofInt 400) (F32.ofInt 200) ∧
        (Main.loadAction
          (Main.gameOf (Main.birdAt (F32.ofInt 460) (F32.ofInt 300) 0)
            (Main.pipeAt (F32.ofInt 400) (F32.ofInt 200)) 2 true)).score = 2 ∧
        (Main.loadAction
          (Main.gameOf (Main.birdAt (F32.ofInt 460) (F32.ofInt 300) 0)
            (Main.pipeAt (F32.ofInt 400) (F32.ofInt 200)) 2 true)).gameOver
            = true) := by
  simp [Main.loadAction, Main.gameOf]

/-- C7 (amended): in both games, when the load action is serviced and there is
no save file, `LoadGame` leaves bird, pipe and score as they were and prints
`No save file found` (it returns nothing to its caller), the animation counter
and the file are untouched, and the phase is Playing afterwards whatever it was
before. -/
theorem load_missing_clears_game_over :
    (∀ g : Main.Game, g.disk = Main.SaveFile.absent →
      Main.LoadGame g.disk g.bird g.pipe g.score
        = ((g.bird, g.pipe, g.score), some "No save file found") ∧
      Main.loadAction g = { g with gameOver := false }) ∧
    (∀ g : FlappyBird.Game, g.disk = FlappyBird.SaveFile.absent →
      FlappyBird.LoadGame g.disk g.bird g.pipe g.score
        = ((g.bird, g.pipe, g.score), some "No save file found") ∧
      FlappyBird.loadAction g = { g with gameOver := false }) := by
  refine ⟨?_, ?_⟩
  · intro g h
    simp [Main.loadAction, Main.LoadGame, h]
  · intro g h
    simp [FlappyBird.loadAction, FlappyBird.LoadGame, h]

/-- Witness for `load_missing_clears_game_over`: the dead bird of the
counterexample is set playing again. -/
theorem load_missing_clears_game_over_witness :
    (Main.gameOf (Main.birdAt (F32.ofInt 460) (F32.ofInt 300) 0)
      (Main.pipeAt (F32.ofInt 400) (F32.ofInt 200)) 2 true).disk = Main.SaveFile.absent ∧
    Main.loadAction (Main.gameOf (Main.birdAt (F32.ofInt 460) (F32.ofInt 300) 0)
        (Main.pipeAt (F32.ofInt 400) (F32.ofInt 200)) 2 true)
      = Main.gameOf (Main.birdAt (F32.ofInt 460) (F32.ofInt 300) 0)
        (Main.pipeAt (F32.ofInt 400) (F32.ofInt 200)) 2 false :=
  ⟨rfl, (load_missing_clears_game_over.1
    (Main.gameOf (Main.birdAt (F32.ofInt 460) (F32.ofInt 300) 0)
      (Main.pipeAt (F32.ofInt 400) (F32.ofInt 200)) 2 true) rfl).2⟩

/-! ## The animation clock -/

/-- The frame index and the counter after the state changes of a Playing tick. -/
theorem Main.playingUpdate_clock (keyW : Bool) (dt : F32)
    (draw : Fin (Main.screenHeight - Main.pipeGap)) (g : Main.Game) :
    (Main.playingUpdate keyW dt draw g).bird.Frame =
      (if F32.ge (F32.add g.frameCounter dt) Main.frameSpeed = true then
        (if wrap64 (g.bird.Frame + 1) ≥ 8 then 0 else wrap64 (g.bird.Frame + 1))
      else g.bird.Frame) ∧
    (Main.playingUpdate keyW dt draw g).frameCounter =
      (if F32.ge (F32.add g.frameCounter dt) Main.frameSpeed = true then F32.ofInt 0
        else F32.add g.frameCounter dt) := by
  constructor
  · rw [Main.playingUpdate, Main.animate_Frame]
    cases keyW <;> simp [Main.integrate, Main.jump]
  · rw [Main.playingUpdate, Main.animate_frameCounter]
    simp

/-- C9 (as stated, refuted): a GameOver tick with the restart key pressed
resets the frame index, here from `3` to `0`. -/
theorem game_over_tick_freezes_frame_counterexample :
    ¬ ((Main.gameOverTick true ⟨0, by decide⟩
          (Main.gameOf (Main.birdAt (F32.ofInt 460) (F32.ofInt 300) 3)
            (Main.pipeAt (F32.ofInt 400) (F32.ofInt 200)) 2 true)).bird.Frame = 3 ∧
        (Main.gameOverTick true ⟨0, by decide⟩
          (Main.gameOf (Main.birdAt (F32.ofInt 460) (F32.ofInt 300) 3)
            (Main.pipeAt (F32.ofInt 400) (F32.ofInt 200)) 2 true)).frameCounter
            = F32.ofInt 0) := by
  simp [Main.gameOverTick, Main.ResetGame, Main.NewBird]

/-- C9 (amended): in a Playing tick of the animated game with the frame index
`i` in `[0, 8)` the counter is increased by `dt` (a float32 sum); if the sum is
at least `frameSpeed`, the float32 nearest to `0.1`, the index becomes
`(i + 1) mod 8` and the counter `0`, otherwise the index is unchanged and the
counter keeps the sum. The index moves by one frame at most per tick, stays in
`[0, 8)`, and the lookup `frames[bird.Frame]` succeeds. A GameOver tick without
the restart key changes nothing; with the restart key it sets the index to `0`
(a new bird) and leaves the counter as it was. From the counter `float32(1/12)`
a step of `8947847 * 2^(-29)` s, whose exact sum is below `0.1`, rounds up to
`frameSpeed` and advances the frame. -/
theorem animation_clock :
    (∀ (keyW : Bool) (dt : F32) (draw : Fin (Main.screenHeight - Main.pipeGap)) (g : Main.Game),
      0 ≤ g.bird.Frame → g.bird.Frame < 8 →
        Main.playingTick keyW dt draw g = some (Main.playingUpdate keyW dt draw g) ∧
        (F32.ge (F32.add g.frameCounter dt) Main.frameSpeed = true →
          (Main.playingUpdate keyW dt draw g).bird.Frame = (g.bird.Frame + 1) % 8 ∧
          (Main.playingUpdate keyW dt draw g).frameCounter = F32.ofInt 0) ∧
        (F32.ge (F32.add g.frameCounter dt) Main.frameSpeed = false →
          (Main.playingUpdate keyW dt draw g).bird.Frame = g.bird.Frame ∧
          (Main.playingUpdate keyW dt draw g).frameCounter = F32.add g.frameCounter dt) ∧
        0 ≤ (Main.playingUpdate keyW dt draw g).bird.Frame ∧
        (Main.playingUpdate keyW dt draw g).bird.Frame < 8) ∧
    Main.frameSpeed = F32.ofBits 13421773 (-27) ∧
    (∀ (draw : Fin (Main.screenHeight - Main.pipeGap)) (g : Main.Game),
      Main.gameOverTick false draw g = g) ∧
    (∀ (draw : Fin (Main.screenHeight - Main.pipeGap)) (g : Main.Game),
      (Main.gameOverTick true draw g).bird.Frame = 0 ∧
      (Main.gameOverTick true draw g).frameCounter = g.frameCounter) ∧
    (F32.toRat (F32.ofQuot false 1 12) + F32.toRat (F32.ofBits 8947847 (-29)) < 1 / 10 ∧
      (Main.playingUpdate false (F32.ofBits 8947847 (-29)) ⟨0, by decide⟩
        { Main.gameOf (Main.birdAt (F32.ofInt 225) (F32.ofInt 0) 4)
            (Main.pipeAt (F32.ofInt 800) (F32.ofInt 200)) 0 false with
          frameCounter := F32.ofQuot false 1 12 }).bird.Frame = 5) := by
  refine ⟨?_, by decide, ?_, ?_, ?_, by decide⟩
  · intro keyW dt draw g h0 h8
    obtain ⟨hf, hc⟩ := Main.playingUpdate_clock keyW dt draw g
    obtain ⟨hs, hr0, hr8⟩ := Main.playingTick_some keyW dt draw g h0 h8
    have hw : wrap64 (g.bird.Frame + 1) = g.bird.Frame + 1 :=
      wrap64_of_lt _ (by omega) (by omega)
    refine ⟨hs, ?_, ?_, hr0, hr8⟩
    · intro h
      rw [hf, hc, if_pos h, if_pos h, hw]
      refine ⟨?_, rfl⟩
      split_ifs <;> omega
    · intro h
      have hn : ¬ (F32.ge (F32.add g.frameCounter dt) Main.frameSpeed = true) := by
        rw [h]; decide
      rw [hf, hc, if_neg hn, if_neg hn]
      exact ⟨rfl, rfl⟩
  · intro draw g
    simp [Main.gameOverTick]
  · intro draw g
    simp [Main.gameOverTick, Main.ResetGame, Main.NewBird]
  · have e1 : F32.ofQuot false 1 12 = F32.fin (11184811 * 2 ^ 122) := by decide
    have e2 : F32.ofBits 8947847 (-29) = F32.fin (8947847 * 2 ^ 120) := by decide
    rw [e1, e2]
    norm_num [F32.toRat]

/-- Witness for `animation_clock`: from frame `7` and counter `0`, a frame of
`1` s (ten animation periods) moves the index to `0`, one step only. -/
theorem animation_clock_witness :
    (0 : Int) ≤ (Main.gameOf (Main.birdAt (F32.ofInt 225) (F32.ofInt 0) 7)
      (Main.pipeAt (F32.ofInt 800) (F32.ofInt 200)) 0 false).bird.Frame ∧
    (Main.gameOf (Main.birdAt (F32.ofInt 225) (F32.ofInt 0) 7)
      (Main.pipeAt (F32.ofInt 800) (F32.ofInt 200)) 0 false).bird.Frame < 8 ∧
    F32.ge (F32.add (Main.gameOf (Main.birdAt (F32.ofInt 225) (F32.ofInt 0) 7)
      (Main.pipeAt (F32.ofInt 800) (F32.ofInt 200)) 0 false).frameCounter (F32.ofInt 1))
      Main.frameSpeed = true ∧
    (Main.playingUpdate false (F32.ofInt 1) ⟨0, by decide⟩
      (Main.gameOf (Main.birdAt (F32.ofInt 225) (F32.ofInt 0) 7)
        (Main.pipeAt (F32.ofInt 800) (F32.ofInt 200)) 0 false)).bird.Frame
        = ((Main.gameOf (Main.birdAt (F32.ofInt 225) (F32.ofInt 0) 7)
            (Main.pipeAt (F32.ofInt 800) (F32.ofInt 200)) 0 false).bird.Frame + 1) % 8 ∧
    (Main.playingUpdate false (F32.ofInt 1) ⟨0, by decide⟩
      (Main.gameOf (Main.birdAt (F32.ofInt 225) (F32.ofInt 0) 7)
        (Main.pipeAt (F32.ofInt 800) (F32.ofInt 200)) 0 false)).frameCounter = F32.ofInt 0 :=
  ⟨by decide, by decide, by decide,
    ((animation_clock.1 false (F32.ofInt 1) ⟨0, by decide⟩
      (Main.gameOf (Main.birdAt (F32.ofInt 225) (F32.ofInt 0) 7)
        (Main.pipeAt (F32.ofInt 800) (F32.ofInt 200)) 0 false)
      (by decide) (by decide)).2.1 (by decide))⟩

